import Mathlib

/-!
# STM32F4-Basic: verification of the interrupt handlers

A shallow embedding of the C sources under `Source/`.  Hardware registers are
natural numbers; every C operation on a `u16`/`u32` value is written with its
explicit bit mask or modulus.  The calls into ST's Standard Peripheral Library
(`stm32f4xx_tim.c`, `stm32f4xx_gpio.c`) are embedded as the register accesses
these library functions perform.
-/

/-! ## Vendor header constants (`stm32f4xx_tim.h`, `stm32f4xx_gpio.h`) -/

/-- Vendor constant `TIM_IT_Update` (`((uint16_t)0x0001)`, the UIF/UIE bit). -/
def TIM_IT_Update : Nat := 0x0001
/-- Vendor constant `TIM_IT_CC1` (`((uint16_t)0x0002)`, the CC1IF/CC1IE bit). -/
def TIM_IT_CC1 : Nat := 0x0002
/-- Vendor constant `TIM_IT_CC2` (`((uint16_t)0x0004)`, the CC2IF/CC2IE bit). -/
def TIM_IT_CC2 : Nat := 0x0004
/-- Vendor constant `TIM_IT_Trigger` (`((uint16_t)0x0040)`, the TIF/TIE bit). -/
def TIM_IT_Trigger : Nat := 0x0040

/-- Vendor constant `TIM_CR1_CEN`: counter enable bit of CR1. -/
def TIM_CR1_CEN : Nat := 0x0001
/-- Vendor constant `TIM_CR1_UDIS`: update disable bit of CR1. -/
def TIM_CR1_UDIS : Nat := 0x0002
/-- Vendor constant `TIM_CR1_URS`: update request source bit of CR1. -/
def TIM_CR1_URS : Nat := 0x0004
/-- Vendor constant `TIM_CR1_OPM`: one pulse mode bit of CR1. -/
def TIM_CR1_OPM : Nat := 0x0008
/-- Vendor constant `TIM_CR1_DIR`: direction bit of CR1. -/
def TIM_CR1_DIR : Nat := 0x0010
/-- Vendor constant `TIM_CR1_CMS`: center-aligned mode field of CR1. -/
def TIM_CR1_CMS : Nat := 0x0060
/-- Vendor constant `TIM_CR1_ARPE`: auto-reload preload enable bit of CR1. -/
def TIM_CR1_ARPE : Nat := 0x0080
/-- Vendor constant `TIM_CR1_CKD`: clock division field of CR1. -/
def TIM_CR1_CKD : Nat := 0x0300
/-- Vendor constant `TIM_SMCR_SMS`: slave mode selection field of SMCR. -/
def TIM_SMCR_SMS : Nat := 0x0007
/-- Vendor constant `TIM_SMCR_TS`: trigger selection field of SMCR. -/
def TIM_SMCR_TS : Nat := 0x0070

/-- Vendor constant `TIM_CKD_DIV1`. -/
def TIM_CKD_DIV1 : Nat := 0x0000
/-- Vendor constant `TIM_CounterMode_Up`. -/
def TIM_CounterMode_Up : Nat := 0x0000
/-- Vendor constant `TIM_SlaveMode_Trigger`. -/
def TIM_SlaveMode_Trigger : Nat := 0x0006
/-- Vendor constant `TIM_TS_ITR1`. -/
def TIM_TS_ITR1 : Nat := 0x0010
/-- Vendor constant `TIM_OPMode_Single`. -/
def TIM_OPMode_Single : Nat := 0x0008

/-- Vendor constant `GPIO_Pin_12`. -/
def GPIO_Pin_12 : Nat := 0x1000
/-- Vendor constant `GPIO_Pin_13`. -/
def GPIO_Pin_13 : Nat := 0x2000
/-- Vendor constant `GPIO_Pin_14`. -/
def GPIO_Pin_14 : Nat := 0x4000
/-- Vendor constant `GPIO_Pin_15`. -/
def GPIO_Pin_15 : Nat := 0x8000

/-! ## Machine arithmetic -/

/-- The C expression `(uint16_t)~x` for a 16-bit `x`. -/
def not16 (x : Nat) : Nat := 0xFFFF ^^^ (x % 0x10000)

/-- The C expression `a - b` on two `u32` operands: subtraction modulo `2^32`. -/
def u32_sub (a b : Nat) : Nat :=
  (a % 4294967296 + 4294967296 - b % 4294967296) % 4294967296

/-! ## Peripheral register files -/

/-- The registers of `TIM_TypeDef` that the demos touch.  `ARR_shadow` is the
    timer's internal shadow of ARR, "actually used by the timer" (basic4.c,
    lines 162-167); it is not software visible. -/
structure TIM_TypeDef where
  CR1 : Nat
  SMCR : Nat
  DIER : Nat
  SR : Nat
  CNT : Nat
  PSC : Nat
  ARR : Nat
  CCR1 : Nat
  CCR2 : Nat
  ARR_shadow : Nat
  deriving DecidableEq, Repr

/-- The output data register of a `GPIO_TypeDef`. -/
structure GPIO_TypeDef where
  ODR : Nat
  deriving DecidableEq, Repr

/-! ## Standard Peripheral Library calls -/

/-- Library call `TIM_GetITStatus(TIMx, TIM_IT)`: `SET` exactly when the flag is set in SR
    and the interrupt is enabled in DIER. -/
def TIM_GetITStatus (t : TIM_TypeDef) (it : Nat) : Bool :=
  (t.SR &&& it != 0) && (t.DIER &&& it != 0)

/-- Library call `TIM_ClearITPendingBit(TIMx, TIM_IT)`: `TIMx->SR = (uint16_t)~TIM_IT`.
    The SR flags are write-0-to-clear; writing 1 leaves a flag as it is. -/
def TIM_ClearITPendingBit (t : TIM_TypeDef) (it : Nat) : TIM_TypeDef :=
  { t with SR := t.SR &&& not16 it }

/-- Library call `TIM_GetCapture1(TIMx)`: `return TIMx->CCR1`. -/
def TIM_GetCapture1 (t : TIM_TypeDef) : Nat := t.CCR1

/-- Library call `TIM_GetCapture2(TIMx)`: `return TIMx->CCR2`. -/
def TIM_GetCapture2 (t : TIM_TypeDef) : Nat := t.CCR2

/-- Library call `TIM_SetAutoreload(TIMx, Autoreload)`: `TIMx->ARR = Autoreload`.  With
    ARPE = 0 the new value is effective immediately, with ARPE = 1 only after
    an update event (basic4.c, lines 221-223). -/
def TIM_SetAutoreload (t : TIM_TypeDef) (autoreload : Nat) : TIM_TypeDef :=
  { t with
    ARR := autoreload
    ARR_shadow := if t.CR1 &&& TIM_CR1_ARPE = 0 then autoreload else t.ARR_shadow }

/-- The time-base fields of `TIM_TimeBaseInitTypeDef` used for TIM2..TIM5. -/
structure TIM_TimeBaseInitTypeDef where
  TIM_Prescaler : Nat
  TIM_CounterMode : Nat
  TIM_Period : Nat
  TIM_ClockDivision : Nat
  deriving DecidableEq, Repr

/-- An update event (UEV) of a timer: the preload value of ARR is copied into
    the shadow register, UIF is set (for a software generated event only when
    URS = 0) and in one pulse mode the counter stops, CEN = 0 (basic4.c,
    lines 162-223). -/
def updateEvent (t : TIM_TypeDef) (bySoftware : Bool) : TIM_TypeDef :=
  { t with
    ARR_shadow := t.ARR
    SR := if bySoftware && (t.CR1 &&& TIM_CR1_URS != 0) then t.SR else t.SR ||| TIM_IT_Update
    CR1 := if t.CR1 &&& TIM_CR1_OPM != 0 then t.CR1 &&& not16 TIM_CR1_CEN else t.CR1 }

/-- Register write `TIMx->EGR = TIM_PSCReloadMode_Immediate` (the UG bit): the counter is set
    to 0 and a UEV is generated unless UDIS is set (basic4.c, lines 194-204). -/
def TIM_GenerateUpdate (t : TIM_TypeDef) : TIM_TypeDef :=
  let t := { t with CNT := 0 }
  if t.CR1 &&& TIM_CR1_UDIS != 0 then t else updateEvent t true

/-- The counter reaches the active auto-reload value: it restarts from 0 and
    a UEV is generated unless UDIS is set. -/
def counterOverflow (t : TIM_TypeDef) : TIM_TypeDef :=
  let t := { t with CNT := 0 }
  if t.CR1 &&& TIM_CR1_UDIS != 0 then t else updateEvent t false

/-- Library call `TIM_TimeBaseInit(TIMx, &base)` for a general purpose timer (TIM2..TIM5):
    counter mode and clock division go into CR1, then ARR and PSC are written
    and an update is generated through EGR. -/
def TIM_TimeBaseInit (t : TIM_TypeDef) (base : TIM_TimeBaseInitTypeDef) : TIM_TypeDef :=
  let tmpcr1 := t.CR1
  let tmpcr1 := tmpcr1 &&& not16 (TIM_CR1_DIR ||| TIM_CR1_CMS)
  let tmpcr1 := tmpcr1 ||| base.TIM_CounterMode
  let tmpcr1 := tmpcr1 &&& not16 TIM_CR1_CKD
  let tmpcr1 := tmpcr1 ||| base.TIM_ClockDivision
  let t := { t with CR1 := tmpcr1 }
  let t := TIM_SetAutoreload t base.TIM_Period
  let t := { t with PSC := base.TIM_Prescaler }
  TIM_GenerateUpdate t

/-- Library call `TIM_SelectSlaveMode(TIMx, mode)`: `SMCR &= ~TIM_SMCR_SMS; SMCR |= mode`. -/
def TIM_SelectSlaveMode (t : TIM_TypeDef) (mode : Nat) : TIM_TypeDef :=
  { t with SMCR := (t.SMCR &&& not16 TIM_SMCR_SMS) ||| mode }

/-- Library call `TIM_SelectInputTrigger(TIMx, source)`: `SMCR = (SMCR & ~TIM_SMCR_TS) | source`. -/
def TIM_SelectInputTrigger (t : TIM_TypeDef) (source : Nat) : TIM_TypeDef :=
  { t with SMCR := (t.SMCR &&& not16 TIM_SMCR_TS) ||| source }

/-- Library call `TIM_ARRPreloadConfig(TIMx, NewState)`: sets (`ENABLE`) or clears
    (`DISABLE`) the ARPE bit of CR1. -/
def TIM_ARRPreloadConfig (t : TIM_TypeDef) (newState : Bool) : TIM_TypeDef :=
  if newState then { t with CR1 := t.CR1 ||| TIM_CR1_ARPE }
  else { t with CR1 := t.CR1 &&& not16 TIM_CR1_ARPE }

/-- Library call `TIM_SelectOnePulseMode(TIMx, mode)`: `CR1 &= ~TIM_CR1_OPM; CR1 |= mode`. -/
def TIM_SelectOnePulseMode (t : TIM_TypeDef) (mode : Nat) : TIM_TypeDef :=
  { t with CR1 := (t.CR1 &&& not16 TIM_CR1_OPM) ||| mode }

/-- Library call `TIM_ITConfig(TIMx, TIM_IT, NewState)`: sets or clears the enable bits in DIER. -/
def TIM_ITConfig (t : TIM_TypeDef) (it : Nat) (newState : Bool) : TIM_TypeDef :=
  if newState then { t with DIER := t.DIER ||| it }
  else { t with DIER := t.DIER &&& not16 it }

/-- Library call `GPIO_SetBits(GPIOx, GPIO_Pin)`: `GPIOx->BSRRL = GPIO_Pin`, which sets the
    selected ODR bits. -/
def GPIO_SetBits (g : GPIO_TypeDef) (pin : Nat) : GPIO_TypeDef :=
  { g with ODR := g.ODR ||| pin }

/-- Library call `GPIO_ResetBits(GPIOx, GPIO_Pin)`: `GPIOx->BSRRH = GPIO_Pin`, which clears
    the selected ODR bits. -/
def GPIO_ResetBits (g : GPIO_TypeDef) (pin : Nat) : GPIO_TypeDef :=
  { g with ODR := g.ODR &&& not16 pin }

/-- Library call `GPIO_ToggleBits(GPIOx, GPIO_Pin)`: `GPIOx->ODR ^= GPIO_Pin`. -/
def GPIO_ToggleBits (g : GPIO_TypeDef) (pin : Nat) : GPIO_TypeDef :=
  { g with ODR := g.ODR ^^^ pin }

/-- Library call `GPIO_ReadOutputDataBit(GPIOx, GPIO_Pin)`: whether the pin's ODR bit is set,
    i.e. whether the LED on that pin is lit. -/
def GPIO_ReadOutputDataBit (g : GPIO_TypeDef) (pin : Nat) : Bool :=
  g.ODR &&& pin != 0

/-- Vendor constant `TIM_PSCReloadMode_Update` (`((uint16_t)0x0000)`). -/
def TIM_PSCReloadMode_Update : Nat := 0x0000
/-- Vendor constant `TIM_PSCReloadMode_Immediate` (`((uint16_t)0x0001)`). -/
def TIM_PSCReloadMode_Immediate : Nat := 0x0001
/-- Vendor constant `TIM_EventSource_Update` (`((uint16_t)0x0001)`, the UG bit of EGR). -/
def TIM_EventSource_Update : Nat := 0x0001
/-- Vendor constant `EXTI_Line0` (`((uint32_t)0x00001)`). -/
def EXTI_Line0 : Nat := 0x00001

/-- Library call `TIM_GenerateEvent(TIMx, source)`: `TIMx->EGR = source`; the
    UG bit generates an update, other event bits are not modelled. -/
def TIM_GenerateEvent (t : TIM_TypeDef) (source : Nat) : TIM_TypeDef :=
  if source &&& TIM_EventSource_Update != 0 then TIM_GenerateUpdate t else t

/-- Library call `TIM_PrescalerConfig(TIMx, Prescaler, mode)`: `TIMx->PSC =
    Prescaler; TIMx->EGR = mode`. -/
def TIM_PrescalerConfig (t : TIM_TypeDef) (prescaler mode : Nat) : TIM_TypeDef :=
  TIM_GenerateEvent { t with PSC := prescaler } mode

/-- Library call `TIM_Cmd(TIMx, NewState)`: sets or clears the CEN bit of CR1. -/
def TIM_Cmd (t : TIM_TypeDef) (newState : Bool) : TIM_TypeDef :=
  if newState then { t with CR1 := t.CR1 ||| TIM_CR1_CEN }
  else { t with CR1 := t.CR1 &&& not16 TIM_CR1_CEN }

/-- Library call `TIM_SetCompare1(TIMx, Compare1)`: `TIMx->CCR1 = Compare1`. -/
def TIM_SetCompare1 (t : TIM_TypeDef) (compare1 : Nat) : TIM_TypeDef :=
  { t with CCR1 := compare1 }

/-- Library call `EXTI_ClearITPendingBit(EXTI_Line)`: `EXTI->PR = EXTI_Line`.
    The bits of the pending register are cleared by writing 1 to them; the
    argument is the value of PR before the write. -/
def EXTI_ClearITPendingBit (pr line : Nat) : Nat :=
  pr &&& (0xFFFFFFFF ^^^ (line % 0x100000000))

/-- The pins among `candidates` (pin numbers) whose LED is lit. -/
def litPins (g : GPIO_TypeDef) (candidates : List Nat) : List Nat :=
  candidates.filter (fun j => GPIO_ReadOutputDataBit g (2 ^ j))

namespace Basic8

/-! ## basic8.c: input capture, master/slave timers -/

/-- The machine state basic8.c works on: the push-button timer TIM2, the LED
    timer TIM4, the LED port GPIOD and the file-static `counter`. -/
structure State where
  TIM2 : TIM_TypeDef
  TIM4 : TIM_TypeDef
  GPIOD : GPIO_TypeDef
  counter : Nat
  deriving DecidableEq, Repr

/-- Function `GetPrescaler` of basic8.c (lines 330-334): `u32 t = (SystemCoreClock /
    clock) - 1` returned as `u16`.  The division by `clock = 0`, undefined in
    C, evaluates to 0 here; basic8.c calls it with 1000 only. -/
def GetPrescaler (SystemCoreClock clock : Nat) : Nat :=
  u32_sub (SystemCoreClock % 4294967296 / (clock % 4294967296)) 1 % 65536

/-- Function `SetupLEDTimer` of basic8.c (lines 250-326), the calls that configure
    TIM4.  The RCC clock gate and the NVIC calls touch no register of the
    state modelled here. -/
def SetupLEDTimer (SystemCoreClock : Nat) (s : State) : State :=
  let base : TIM_TimeBaseInitTypeDef :=
    { TIM_ClockDivision := TIM_CKD_DIV1
      TIM_CounterMode := TIM_CounterMode_Up
      TIM_Period := 1000
      TIM_Prescaler := GetPrescaler SystemCoreClock 1000 }
  let s := { s with TIM4 := TIM_TimeBaseInit s.TIM4 base }
  let s := { s with TIM4 := TIM_ClearITPendingBit s.TIM4 TIM_IT_Update }
  let s := { s with TIM4 := TIM_SelectSlaveMode s.TIM4 TIM_SlaveMode_Trigger }
  let s := { s with TIM4 := TIM_SelectInputTrigger s.TIM4 TIM_TS_ITR1 }
  let s := { s with TIM4 := TIM_ARRPreloadConfig s.TIM4 false }
  let s := { s with TIM4 := TIM_SelectOnePulseMode s.TIM4 TIM_OPMode_Single }
  { s with TIM4 := TIM_ITConfig s.TIM4 TIM_IT_Update true }

/-- Handler `TIM2_IRQHandler` of basic8.c (lines 343-380). -/
def TIM2_IRQHandler (s : State) : State :=
  if TIM_GetITStatus s.TIM2 TIM_IT_CC1 = true then
    let s := { s with TIM2 := TIM_ClearITPendingBit s.TIM2 TIM_IT_CC1 }
    let s := { s with counter := u32_sub (TIM_GetCapture1 s.TIM2) s.counter }
    let s := { s with TIM4 := TIM_SetAutoreload s.TIM4 s.counter }
    let s := { s with GPIOD := GPIO_ResetBits s.GPIOD GPIO_Pin_12 }
    { s with GPIOD := GPIO_SetBits s.GPIOD GPIO_Pin_14 }
  else if TIM_GetITStatus s.TIM2 TIM_IT_CC2 = true then
    let s := { s with TIM2 := TIM_ClearITPendingBit s.TIM2 TIM_IT_CC2 }
    let s := { s with counter := TIM_GetCapture2 s.TIM2 }
    { s with GPIOD := GPIO_SetBits s.GPIOD GPIO_Pin_12 }
  else
    s

/-- Handler `TIM4_IRQHandler` of basic8.c (lines 384-401). -/
def TIM4_IRQHandler (s : State) : State :=
  if TIM_GetITStatus s.TIM4 TIM_IT_Update = true then
    let s := { s with TIM4 := TIM_ClearITPendingBit s.TIM4 TIM_IT_Update }
    { s with GPIOD := GPIO_ToggleBits s.GPIOD GPIO_Pin_14 }
  else
    s

/-- A PRESS is waiting to be handled: the rising-edge capture (channel 2) is
    the pending interrupt, CC1 is not pending, and CCR2 holds tick `p`. -/
def pressPending (s : State) (p : Nat) : Prop :=
  TIM_GetITStatus s.TIM2 TIM_IT_CC1 = false ∧
  TIM_GetITStatus s.TIM2 TIM_IT_CC2 = true ∧ s.TIM2.CCR2 = p

/-- A RELEASE is waiting to be handled: the falling-edge capture (channel 1)
    is pending and CCR1 holds tick `r`. -/
def releasePending (s : State) (r : Nat) : Prop :=
  TIM_GetITStatus s.TIM2 TIM_IT_CC1 = true ∧ s.TIM2.CCR1 = r

instance (s : State) (p : Nat) : Decidable (pressPending s p) := by
  unfold pressPending; infer_instance

instance (s : State) (r : Nat) : Decidable (releasePending s r) := by
  unfold releasePending; infer_instance

/-! ### The hardware between two interrupts -/

/-- What the hardware can do between two handler invocations: status flags,
    counters, capture registers and CEN may change, but the C variable
    `counter`, the LED port, TIM4's ARR and the interrupt enables are written
    by software only. -/
def hardwareStep (a b : State) : Prop :=
  b.counter = a.counter ∧ b.GPIOD = a.GPIOD ∧ b.TIM4.ARR = a.TIM4.ARR ∧
  b.TIM2.DIER = a.TIM2.DIER ∧ b.TIM4.DIER = a.TIM4.DIER

instance (a b : State) : Decidable (hardwareStep a b) := by
  unfold hardwareStep; infer_instance

/-- The push button goes down at tick `p`: channel 2 captures the rising edge,
    CCR2 holds the counter value and CC2IF is set (basic8.c, lines 151-165). -/
def risingEdge (p : Nat) (s : State) : State :=
  { s with TIM2 := { s.TIM2 with CCR2 := p, SR := s.TIM2.SR ||| TIM_IT_CC2 } }

/-- The push button is released at tick `r`: channel 1 captures the falling
    edge, CCR1 holds the counter value and CC1IF is set.  The CC1 event is
    TIM2's trigger output; a TIM4 in trigger slave mode on ITR1 enables itself
    and raises its trigger flag (basic8.c, lines 232-235 and 293-303). -/
def fallingEdge (r : Nat) (s : State) : State :=
  let s := { s with TIM2 := { s.TIM2 with CCR1 := r, SR := s.TIM2.SR ||| TIM_IT_CC1 } }
  if s.TIM4.SMCR &&& TIM_SMCR_SMS = TIM_SlaveMode_Trigger ∧
      s.TIM4.SMCR &&& TIM_SMCR_TS = TIM_TS_ITR1 then
    { s with TIM4 := { s.TIM4 with CR1 := s.TIM4.CR1 ||| TIM_CR1_CEN,
                                   SR := s.TIM4.SR ||| TIM_IT_Trigger } }
  else s

/-- TIM4's counter reaches its auto-reload value. -/
def ledTimerExpires (s : State) : State :=
  { s with TIM4 := counterOverflow s.TIM4 }

/-- All modelled registers at their reset value, `counter = 0` as initialised
    at basic8.c line 339. -/
def resetState : State :=
  { TIM2 := { CR1 := 0, SMCR := 0, DIER := 0, SR := 0, CNT := 0, PSC := 0,
              ARR := 0xFFFFFFFF, CCR1 := 0, CCR2 := 0, ARR_shadow := 0xFFFFFFFF }
    TIM4 := { CR1 := 0, SMCR := 0, DIER := 0, SR := 0, CNT := 0, PSC := 0,
              ARR := 0xFFFF, CCR1 := 0, CCR2 := 0, ARR_shadow := 0xFFFF }
    GPIOD := { ODR := 0 }
    counter := 0 }

/-- Function `SetupPushButtonTimer` of basic8.c (lines 91-247), the calls that
    write registers modelled here: the time base of TIM2, the two capture
    interrupt enables and the counter enable.  The two `TIM_ICInit` calls
    write CCMR1 and CCER, `TIM_SelectOutputTrigger` writes CR2; the update
    flag that `TIM_TimeBaseInit` raises is not cleared. -/
def SetupPushButtonTimer (SystemCoreClock : Nat) (s : State) : State :=
  let base : TIM_TimeBaseInitTypeDef :=
    { TIM_ClockDivision := TIM_CKD_DIV1
      TIM_CounterMode := TIM_CounterMode_Up
      TIM_Period := 0xFFFFFFFF
      TIM_Prescaler := GetPrescaler SystemCoreClock 1000 }
  let s := { s with TIM2 := TIM_TimeBaseInit s.TIM2 base }
  let s := { s with TIM2 := TIM_ITConfig s.TIM2 TIM_IT_CC1 true }
  let s := { s with TIM2 := TIM_ITConfig s.TIM2 TIM_IT_CC2 true }
  { s with TIM2 := TIM_Cmd s.TIM2 true }

/-- The state `Basic8` reaches before its idle loop at a 16 MHz core clock
    (basic8.c, lines 46-49): `SetupPushButtonTimer`, then `SetupLEDTimer`, run
    from reset.  `SetupLEDs` and `SetupPushButton` write the mode registers
    of the ports only. -/
def configured : State :=
  SetupLEDTimer 16000000 (SetupPushButtonTimer 16000000 resetState)

/-! ### Concrete runs of the demo -/

/-- The configured system after a PRESS at tick `p` has been captured and
    handled. -/
def afterPress (p : Nat) : State :=
  TIM2_IRQHandler (risingEdge p configured)

/-- A RELEASE at tick `r` is captured after the PRESS at `p` was handled; the
    RELEASE is not handled yet. -/
def releaseAfterPress (p r : Nat) : State :=
  fallingEdge r (afterPress p)

/-- PRESS at 10 and RELEASE at 250 are both captured before the handler runs
    once. -/
def bothEdgesPending : State :=
  fallingEdge 250 (risingEdge 10 configured)

/-- TIM4 raises its update interrupt while the timed LED is off. -/
def expiryWithLedOff : State :=
  ledTimerExpires configured

/-- The overrun run PRESS at 0, RELEASE at 100, PRESS at 50, all handled, and
    then a RELEASE at 80 captured but not handled yet: TIM4 is still counting
    its first cycle. -/
def secondReleasePending : State :=
  fallingEdge 80 (TIM2_IRQHandler (risingEdge 50 (TIM2_IRQHandler (releaseAfterPress 0 100))))

/-- Number of ON-to-OFF transitions in a sequence of observed pin levels. -/
def onOffTransitions : List Bool → Nat
  | true :: false :: rest => 1 + onOffTransitions (false :: rest)
  | _ :: rest => onOffTransitions rest
  | [] => 0

/-! ### Sequences of edges -/

/-- An edge of the push button with the tick at which it is captured. -/
inductive Edge where
  | PRESS (tick : Nat)
  | RELEASE (tick : Nat)
  deriving DecidableEq, Repr

/-- Whether the edge is a PRESS. -/
def Edge.isPress : Edge → Bool
  | .PRESS _ => true
  | .RELEASE _ => false

/-- The capture hardware records the edge. -/
def captureEdge (e : Edge) (s : State) : State :=
  match e with
  | .PRESS p => risingEdge p s
  | .RELEASE r => fallingEdge r s

/-- One edge is captured and `TIM2_IRQHandler` is invoked once for it. -/
def handleEdge (s : State) (e : Edge) : State :=
  TIM2_IRQHandler (captureEdge e s)

/-- A sequence of edges, each handled by its own handler invocation. -/
def handleEdges (s : State) (es : List Edge) : State :=
  es.foldl handleEdge s

/-- No capture event is waiting and both capture interrupts are enabled, as
    after `SetupPushButtonTimer` (basic8.c, lines 238-239). -/
def captureIdle (s : State) : Prop :=
  s.TIM2.SR &&& TIM_IT_CC1 = 0 ∧ s.TIM2.SR &&& TIM_IT_CC2 = 0 ∧
  s.TIM2.DIER &&& TIM_IT_CC1 ≠ 0 ∧ s.TIM2.DIER &&& TIM_IT_CC2 ≠ 0

instance (s : State) : Decidable (captureIdle s) := by
  unfold captureIdle; infer_instance

end Basic8

namespace Basic4

/-! ## basic4.c: the two basic timers -/

/-- The machine state basic4.c works on: the basic timers TIM6 and TIM7, the
    timer TIM4 that `SetupTimer6` writes to, the LED port GPIOD, the
    file-static `times` and the function-static `currentPin` and `oldPin` of
    `TIM7_IRQHandler`. -/
structure State where
  TIM4 : TIM_TypeDef
  TIM6 : TIM_TypeDef
  TIM7 : TIM_TypeDef
  GPIOD : GPIO_TypeDef
  times : Nat
  currentPin : Nat
  oldPin : Nat
  deriving DecidableEq, Repr

/-- Function `GetPrescaler` of basic4.c (lines 338-344): `u32 f =
    SystemCoreClock / clockSpeed; f--; return (u16)f`.  The division by
    `clockSpeed = 0`, undefined in C, evaluates to 0 here. -/
def GetPrescaler (SystemCoreClock clockSpeed : Nat) : Nat :=
  let f := SystemCoreClock % 4294967296 / (clockSpeed % 4294967296)
  let f := u32_sub f 1
  f % 65536

/-- Function `SetTimerClock` of basic4.c (lines 349-358). -/
def SetTimerClock (SystemCoreClock : Nat) (t : TIM_TypeDef) (clockSpeed : Nat) : TIM_TypeDef :=
  TIM_PrescalerConfig t (GetPrescaler SystemCoreClock clockSpeed) TIM_PSCReloadMode_Update

/-- Function `SetupTimer6` of basic4.c (lines 261-310), the calls that write
    timer registers.  Line 273 passes `TIM4` to `TIM_ARRPreloadConfig`; the
    write is taken to reach TIM4's CR1, although basic4.c enables the clock of
    TIM6 and TIM7 only. -/
def SetupTimer6 (SystemCoreClock : Nat) (s : State) : State :=
  let s := { s with TIM6 := TIM_SetAutoreload s.TIM6 (1000 - 1) }
  let s := { s with TIM4 := TIM_ARRPreloadConfig s.TIM4 true }
  let s := { s with TIM6 := SetTimerClock SystemCoreClock s.TIM6 1000 }
  let s := { s with TIM6 := TIM_GenerateEvent s.TIM6 TIM_EventSource_Update }
  let s := { s with TIM6 := TIM_ITConfig s.TIM6 TIM_IT_Update true }
  { s with TIM6 := TIM_Cmd s.TIM6 true }

/-- Function `SetupTimer7` of basic4.c (lines 313-334), the calls that write
    timer registers. -/
def SetupTimer7 (SystemCoreClock : Nat) (s : State) : State :=
  let s := { s with TIM7 := TIM_SetAutoreload s.TIM7 999 }
  let s := { s with TIM7 := SetTimerClock SystemCoreClock s.TIM7 3000 }
  let s := { s with TIM7 := TIM_ITConfig s.TIM7 TIM_IT_Update true }
  { s with TIM7 := TIM_Cmd s.TIM7 true }

/-- Handler `TIM6_DAC_IRQHandler` of basic4.c (lines 366-387); `times++` is a
    `u32` increment. -/
def TIM6_DAC_IRQHandler (SystemCoreClock : Nat) (s : State) : State :=
  let s := { s with TIM6 := TIM_ClearITPendingBit s.TIM6 TIM_IT_Update }
  let s := { s with GPIOD := GPIO_ToggleBits s.GPIOD GPIO_Pin_12 }
  let s := { s with times := (s.times + 1) % 4294967296 }
  if s.times = 5 then
    { s with TIM6 := SetTimerClock SystemCoreClock s.TIM6 2000 }
  else if s.times = 10 then
    { s with TIM6 := TIM_SelectOnePulseMode s.TIM6 TIM_OPMode_Single }
  else
    s

/-- The array `pins` of `TIM7_IRQHandler` (basic4.c, lines 394-398). -/
def pins : List Nat := [GPIO_Pin_13, GPIO_Pin_14, GPIO_Pin_15]

/-- Handler `TIM7_IRQHandler` of basic4.c (lines 392-420).  An index outside
    `pins`, undefined in C, reads 0 here. -/
def TIM7_IRQHandler (SystemCoreClock : Nat) (s : State) : State :=
  let s := { s with TIM7 := TIM_ClearITPendingBit s.TIM7 TIM_IT_Update }
  let s := { s with GPIOD := GPIO_SetBits s.GPIOD (pins.getD s.currentPin 0) }
  let s := { s with GPIOD := GPIO_ResetBits s.GPIOD (pins.getD s.oldPin 0) }
  let s := { s with oldPin := s.currentPin }
  let s := { s with currentPin := (s.currentPin + 1) % 4294967296 }
  let s := { s with currentPin := s.currentPin % 3 }
  if s.times = 5 then
    { s with TIM7 := SetTimerClock SystemCoreClock s.TIM7 6000 }
  else if s.times = 10 then
    { s with TIM7 := TIM_SelectOnePulseMode s.TIM7 TIM_OPMode_Single }
  else
    s

/-- The two timer interrupts of basic4. -/
inductive Irq where
  | TIM6
  | TIM7
  deriving DecidableEq, Repr

/-- The handler the vector table runs for an interrupt. -/
def dispatch (SystemCoreClock : Nat) (s : State) : Irq → State
  | .TIM6 => TIM6_DAC_IRQHandler SystemCoreClock s
  | .TIM7 => TIM7_IRQHandler SystemCoreClock s

/-- A sequence of timer interrupts, handled one after the other. -/
def runIrqs (SystemCoreClock : Nat) (s : State) (irqs : List Irq) : State :=
  irqs.foldl (dispatch SystemCoreClock) s

/-- All modelled registers at their reset value and the static variables as
    initialised at basic4.c lines 362, 400 and 401. -/
def resetState : State :=
  { TIM4 := { CR1 := 0, SMCR := 0, DIER := 0, SR := 0, CNT := 0, PSC := 0,
              ARR := 0xFFFF, CCR1 := 0, CCR2 := 0, ARR_shadow := 0xFFFF }
    TIM6 := { CR1 := 0, SMCR := 0, DIER := 0, SR := 0, CNT := 0, PSC := 0,
              ARR := 0xFFFF, CCR1 := 0, CCR2 := 0, ARR_shadow := 0xFFFF }
    TIM7 := { CR1 := 0, SMCR := 0, DIER := 0, SR := 0, CNT := 0, PSC := 0,
              ARR := 0xFFFF, CCR1 := 0, CCR2 := 0, ARR_shadow := 0xFFFF }
    GPIOD := { ODR := 0 }
    times := 0
    currentPin := 0
    oldPin := 2 }

/-- The state `SetupBasicTimers` leaves at a 16 MHz core clock (basic4.c,
    lines 240-241). -/
def configured : State :=
  SetupTimer7 16000000 (SetupTimer6 16000000 resetState)

end Basic4

/-! ## Conversions between `int` and `u32` -/

/-- The C conversion of a `u32` value to `int` (two's complement). -/
def int_of_u32 (x : Nat) : Int :=
  if x % 4294967296 < 2147483648 then (x % 4294967296 : Nat) else (x % 4294967296 : Nat) - 4294967296

/-- The C conversion of an `int` value to `u32`: reduction modulo `2^32`. -/
def u32_of_int (i : Int) : Nat :=
  (i % 4294967296).toNat

namespace Basic6

/-! ## basic6.c: PWM generation -/

/-- The machine state the handler of basic6.c works on: the PWM timer TIM4
    and the function-static `dir`. -/
structure State where
  TIM4 : TIM_TypeDef
  dir : Int
  deriving DecidableEq, Repr

/-- Handler `TIM4_IRQHandler` of basic6.c (lines 198-221).  In `int newValue
    = TIM_GetCapture1(TIM4) + (dir * 5)` the product is converted to `u32`,
    the sum is taken modulo `2^32` and converted to `int`. -/
def TIM4_IRQHandler (s : State) : State :=
  let s := { s with TIM4 := TIM_ClearITPendingBit s.TIM4 TIM_IT_Update }
  let newValue : Int :=
    int_of_u32 ((TIM_GetCapture1 s.TIM4 % 4294967296 + u32_of_int (s.dir * 5)) % 4294967296)
  if newValue ≥ 1000 then
    let newValue : Int := 1000
    let s := { s with dir := -1 }
    { s with TIM4 := TIM_SetCompare1 s.TIM4 (u32_of_int newValue) }
  else if newValue ≤ 0 then
    let newValue : Int := 0
    let s := { s with dir := 1 }
    { s with TIM4 := TIM_SetCompare1 s.TIM4 (u32_of_int newValue) }
  else
    { s with TIM4 := TIM_SetCompare1 s.TIM4 (u32_of_int newValue) }

/-- The state `SetupTimer` leaves at a 16 MHz core clock, as far as the
    registers modelled here go: a 100 kHz time base counting 0..999, ARPE and
    CEN set, the update interrupt enabled, `CCR1 = 1000` (`oc.TIM_Pulse`,
    basic6.c lines 164-165); `dir = -1` (line 202). -/
def configured : State :=
  { TIM4 := { CR1 := TIM_CR1_ARPE ||| TIM_CR1_CEN, SMCR := 0, DIER := TIM_IT_Update,
              SR := TIM_IT_Update, CNT := 0, PSC := 159, ARR := 999, CCR1 := 1000,
              CCR2 := 0, ARR_shadow := 999 }
    dir := -1 }

end Basic6

namespace Basic3

/-! ## basic3.c: external interrupt of the push button -/

/-- The machine state basic3.c works on: the LED port GPIOD, the pending
    register of the EXTI controller and the function-static `currentPin`. -/
structure State where
  GPIOD : GPIO_TypeDef
  EXTI_PR : Nat
  currentPin : Nat
  deriving DecidableEq, Repr

/-- The array `pins` of `EXTI0_IRQHandler` (basic3.c, lines 222-227). -/
def pins : List Nat := [GPIO_Pin_12, GPIO_Pin_13, GPIO_Pin_14, GPIO_Pin_15]

/-- Function `SetupLEDs` of basic3.c (lines 45-61): `GPIO_Init` writes the
    mode registers of the port only, then pin 12 is set. -/
def SetupLEDs (s : State) : State :=
  { s with GPIOD := GPIO_SetBits s.GPIOD GPIO_Pin_12 }

/-- Handler `EXTI0_IRQHandler` of basic3.c (lines 220-245).  An index outside
    `pins`, undefined in C, reads 0 here. -/
def EXTI0_IRQHandler (s : State) : State :=
  let s := { s with EXTI_PR := EXTI_ClearITPendingBit s.EXTI_PR EXTI_Line0 }
  let nextPin := (s.currentPin + 1) % 4
  let both := pins.getD s.currentPin 0 ||| pins.getD nextPin 0
  let s := { s with GPIOD := GPIO_ToggleBits s.GPIOD both }
  { s with currentPin := nextPin % 65536 }

/-- The output register at its reset value, no interrupt pending and
    `currentPin = 0` as initialised at basic3.c line 229. -/
def resetState : State :=
  { GPIOD := { ODR := 0 }, EXTI_PR := 0, currentPin := 0 }

end Basic3

namespace Basic2

/-! ## basic2.c: the SysTick millisecond countdown -/

/-- The machine state basic2.c works on: the LED port GPIOD and the global
    `g_iTimer`. -/
structure State where
  GPIOD : GPIO_TypeDef
  g_iTimer : Nat
  deriving DecidableEq, Repr

/-- Handler `SysTick_Handler` of basic2.c (lines 100-106), run once per
    millisecond (lines 62-64); `g_iTimer--` is a `u32` decrement. -/
def SysTick_Handler (s : State) : State :=
  if s.g_iTimer ≠ 0 then
    { s with g_iTimer := u32_sub s.g_iTimer 1 }
  else
    s

/-- The loop `while (g_iTimer) {}` of `Delay` (basic2.c, lines 90-92): the
    condition is read, and while it holds the loop spins until the next
    SysTick interrupt has been handled.  `ticks` counts the interrupts taken
    so far; the result is `none` when `fuel` interrupts do not end the
    loop. -/
def Delay_loop : Nat → Nat → State → Option (Nat × State)
  | 0, _, _ => none
  | fuel + 1, ticks, s =>
    if s.g_iTimer ≠ 0 then Delay_loop fuel (ticks + 1) (SysTick_Handler s)
    else some (ticks, s)

/-- Function `Delay` of basic2.c (lines 87-93): `g_iTimer = ms`, then the wait
    loop.  Returns the number of SysTick interrupts taken before the loop
    exits and the state at exit. -/
def Delay (ms : Nat) (fuel : Nat) (s : State) : Option (Nat × State) :=
  let s := { s with g_iTimer := ms % 4294967296 }
  Delay_loop fuel 0 s

/-- The state at reset: LEDs off and `g_iTimer = 0` (basic2.c, line 12). -/
def resetState : State :=
  { GPIOD := { ODR := 0 }, g_iTimer := 0 }

end Basic2

namespace Basic1

/-! ## basic1.c: the LED loop -/

/-- The machine state the loop of basic1.c works on: the LED port GPIOD. -/
structure State where
  GPIOD : GPIO_TypeDef
  deriving DecidableEq, Repr

/-- The instruction `asm("nop")`. -/
def nop (s : State) : State := s

/-- Function `Wait` of basic1.c (lines 41-51): `milli` rounds of `m =
    SystemCoreClock / 2000` `nop` instructions, `milli` being a `u16`. -/
def Wait (SystemCoreClock : Nat) (milli : Nat) (s : State) : State :=
  let m := SystemCoreClock % 4294967296 / 2000
  (nop^[m])^[milli % 65536] s

/-- First step of the loop body of `Basic1` (basic1.c, lines 24-26). -/
def step1 (SystemCoreClock : Nat) (s : State) : State :=
  let s := { s with GPIOD := GPIO_ToggleBits s.GPIOD GPIO_Pin_12 }
  let s := { s with GPIOD := GPIO_ResetBits s.GPIOD GPIO_Pin_15 }
  Wait SystemCoreClock 500 s

/-- Second step of the loop body of `Basic1` (basic1.c, lines 28-29). -/
def step2 (SystemCoreClock : Nat) (s : State) : State :=
  let s := { s with GPIOD := GPIO_ToggleBits s.GPIOD (GPIO_Pin_12 ||| GPIO_Pin_13) }
  Wait SystemCoreClock 500 s

/-- Third step of the loop body of `Basic1` (basic1.c, lines 31-32). -/
def step3 (SystemCoreClock : Nat) (s : State) : State :=
  let s := { s with GPIOD := GPIO_ToggleBits s.GPIOD (GPIO_Pin_13 ||| GPIO_Pin_14) }
  Wait SystemCoreClock 500 s

/-- Fourth step of the loop body of `Basic1` (basic1.c, lines 34-35). -/
def step4 (SystemCoreClock : Nat) (s : State) : State :=
  let s := { s with GPIOD := GPIO_ToggleBits s.GPIOD (GPIO_Pin_14 ||| GPIO_Pin_15) }
  Wait SystemCoreClock 500 s

/-- One iteration of the `while (1)` loop of `Basic1` (basic1.c, lines
    22-36). -/
def loopBody (SystemCoreClock : Nat) (s : State) : State :=
  step4 SystemCoreClock (step3 SystemCoreClock (step2 SystemCoreClock (step1 SystemCoreClock s)))

/-- The state in which `Basic1` enters its loop: `Initialize_GPIO` writes the
    mode registers of the port only, the output register has its reset value
    0. -/
def resetState : State :=
  { GPIOD := { ODR := 0 } }

end Basic1

/-! ## Bit-level facts about the register operations -/

theorem and_not16_and_self (x m : Nat) : (x &&& not16 m) &&& m = 0 := by
  apply Nat.eq_of_testBit_eq
  intro i
  have h : (65535 : Nat) = 2 ^ 16 - 1 := by norm_num
  have h2 : (65536 : Nat) = 2 ^ 16 := by norm_num
  simp only [not16, Nat.testBit_and, Nat.testBit_xor, h, h2, Nat.testBit_two_pow_sub_one,
    Nat.testBit_mod_two_pow, Nat.zero_testBit]
  by_cases hi : i < 16 <;> simp [hi]

theorem or_and_self_mask (x m : Nat) : (x ||| m) &&& m = m := by
  apply Nat.eq_of_testBit_eq
  intro i
  simp only [Nat.testBit_and, Nat.testBit_or]
  cases x.testBit i <;> cases m.testBit i <;> rfl

theorem and_single_bit (x k : Nat) : x &&& 2 ^ k = 0 ∨ x &&& 2 ^ k = 2 ^ k := by
  by_cases h : x.testBit k
  · right
    apply Nat.eq_of_testBit_eq
    intro i
    simp only [Nat.testBit_and, Nat.testBit_two_pow]
    by_cases hik : k = i
    · subst hik; simp [h]
    · simp [hik]
  · left
    apply Nat.eq_of_testBit_eq
    intro i
    simp only [Nat.testBit_and, Nat.testBit_two_pow, Nat.zero_testBit]
    by_cases hik : k = i
    · subst hik; simp [h]
    · simp [hik]

theorem u32_sub_lt (a b : Nat) : u32_sub a b < 4294967296 := by
  unfold u32_sub; omega

theorem u32_sub_int (a b : Nat) (ha : a < 4294967296) (hb : b < 4294967296) :
    ((u32_sub a b : Nat) : Int) = ((a : Int) - (b : Int)) % 4294967296 := by
  unfold u32_sub; omega

theorem u32_sub_of_le (a b : Nat) (ha : a < 4294967296) (h : b ≤ a) :
    u32_sub a b = a - b := by
  unfold u32_sub; omega

theorem u32_sub_of_lt (a b : Nat) (hb : b < 4294967296) (h : a < b) :
    u32_sub a b = 4294967296 - (b - a) := by
  unfold u32_sub; omega

theorem TIM_GetITStatus_clear_self (t : TIM_TypeDef) (it : Nat) :
    TIM_GetITStatus (TIM_ClearITPendingBit t it) it = false := by
  simp [TIM_GetITStatus, TIM_ClearITPendingBit, and_not16_and_self]

theorem TIM_GetITStatus_clear_other (t : TIM_TypeDef) (it jt : Nat)
    (h : not16 it &&& jt = jt) :
    TIM_GetITStatus (TIM_ClearITPendingBit t it) jt = TIM_GetITStatus t jt := by
  simp [TIM_GetITStatus, TIM_ClearITPendingBit, Nat.and_assoc, h]

theorem GPIO_read_set_self (g : GPIO_TypeDef) (pin : Nat) (h : pin ≠ 0) :
    GPIO_ReadOutputDataBit (GPIO_SetBits g pin) pin = true := by
  simp [GPIO_ReadOutputDataBit, GPIO_SetBits, or_and_self_mask, h]

theorem GPIO_read_set_other (g : GPIO_TypeDef) (pin q : Nat) (h : pin &&& q = 0) :
    GPIO_ReadOutputDataBit (GPIO_SetBits g pin) q = GPIO_ReadOutputDataBit g q := by
  simp [GPIO_ReadOutputDataBit, GPIO_SetBits, Nat.and_distrib_right, h]

theorem GPIO_read_reset_self (g : GPIO_TypeDef) (pin : Nat) :
    GPIO_ReadOutputDataBit (GPIO_ResetBits g pin) pin = false := by
  simp [GPIO_ReadOutputDataBit, GPIO_ResetBits, and_not16_and_self]

theorem GPIO_read_reset_other (g : GPIO_TypeDef) (pin q : Nat) (h : not16 pin &&& q = q) :
    GPIO_ReadOutputDataBit (GPIO_ResetBits g pin) q = GPIO_ReadOutputDataBit g q := by
  simp [GPIO_ReadOutputDataBit, GPIO_ResetBits, Nat.and_assoc, h]

theorem GPIO_read_toggle_14 (g : GPIO_TypeDef) :
    GPIO_ReadOutputDataBit (GPIO_ToggleBits g GPIO_Pin_14) GPIO_Pin_14 =
      !GPIO_ReadOutputDataBit g GPIO_Pin_14 := by
  have hp : (2 : Nat) ^ 14 = 16384 := by norm_num
  simp only [GPIO_ReadOutputDataBit, GPIO_ToggleBits, GPIO_Pin_14, Nat.and_xor_distrib_right,
    Nat.and_self]
  rcases and_single_bit g.ODR 14 with h | h <;> rw [hp] at h <;> simp [h]

namespace Basic8

/-! ## The three paths of `TIM2_IRQHandler` and the two of `TIM4_IRQHandler` -/

theorem TIM2_IRQHandler_release (s : State)
    (h : TIM_GetITStatus s.TIM2 TIM_IT_CC1 = true) :
    TIM2_IRQHandler s =
      { TIM2 := TIM_ClearITPendingBit s.TIM2 TIM_IT_CC1
        TIM4 := TIM_SetAutoreload s.TIM4 (u32_sub s.TIM2.CCR1 s.counter)
        GPIOD := GPIO_SetBits (GPIO_ResetBits s.GPIOD GPIO_Pin_12) GPIO_Pin_14
        counter := u32_sub s.TIM2.CCR1 s.counter } := by
  simp [TIM2_IRQHandler, h, TIM_GetCapture1, TIM_ClearITPendingBit]

theorem TIM2_IRQHandler_press (s : State)
    (h1 : TIM_GetITStatus s.TIM2 TIM_IT_CC1 = false)
    (h2 : TIM_GetITStatus s.TIM2 TIM_IT_CC2 = true) :
    TIM2_IRQHandler s =
      { TIM2 := TIM_ClearITPendingBit s.TIM2 TIM_IT_CC2
        TIM4 := s.TIM4
        GPIOD := GPIO_SetBits s.GPIOD GPIO_Pin_12
        counter := s.TIM2.CCR2 } := by
  simp [TIM2_IRQHandler, h1, h2, TIM_GetCapture2, TIM_ClearITPendingBit]

theorem TIM2_IRQHandler_idle (s : State)
    (h1 : TIM_GetITStatus s.TIM2 TIM_IT_CC1 = false)
    (h2 : TIM_GetITStatus s.TIM2 TIM_IT_CC2 = false) :
    TIM2_IRQHandler s = s := by
  simp [TIM2_IRQHandler, h1, h2]

theorem TIM4_IRQHandler_update (s : State)
    (h : TIM_GetITStatus s.TIM4 TIM_IT_Update = true) :
    TIM4_IRQHandler s =
      { s with TIM4 := TIM_ClearITPendingBit s.TIM4 TIM_IT_Update
               GPIOD := GPIO_ToggleBits s.GPIOD GPIO_Pin_14 } := by
  simp [TIM4_IRQHandler, h]

theorem TIM4_IRQHandler_idle (s : State)
    (h : TIM_GetITStatus s.TIM4 TIM_IT_Update = false) :
    TIM4_IRQHandler s = s := by
  simp [TIM4_IRQHandler, h]

theorem expiry_toggles (s : State) (hupd : TIM_GetITStatus s.TIM4 TIM_IT_Update = true) :
    GPIO_ReadOutputDataBit (TIM4_IRQHandler s).GPIOD GPIO_Pin_14 =
      !GPIO_ReadOutputDataBit s.GPIOD GPIO_Pin_14 := by
  rw [TIM4_IRQHandler_update s hupd]
  exact GPIO_read_toggle_14 s.GPIOD

theorem release_arms (s : State) (r : Nat) (h : releasePending s r) :
    (TIM2_IRQHandler s).TIM4.ARR = u32_sub r s.counter ∧
    (TIM2_IRQHandler s).counter = u32_sub r s.counter := by
  obtain ⟨h1, h2⟩ := h
  rw [TIM2_IRQHandler_release s h1, h2]
  simp [TIM_SetAutoreload]

theorem press_stores (s : State) (p : Nat) (h : pressPending s p) :
    (TIM2_IRQHandler s).counter = p := by
  obtain ⟨h1, h2, h3⟩ := h
  rw [TIM2_IRQHandler_press s h1 h2, h3]

end Basic8

namespace Basic8

/-! ## Claims about the capture handler and the LED timer handler -/

/-- C1: when `TIM2_IRQHandler` handles a PRESS with capture-2 value `p` and
    then a RELEASE with capture-1 value `r` (the hardware acting in between),
    the duration it computes, keeps in `counter` and writes to TIM4's ARR is
    `(r - p) mod 2^32`: `r - p` when `p ≤ r`, and `2^32 - (p - r)` in the
    wraparound case `r < p`. -/
theorem C1_release_after_press_duration (s₁ s₂ : State) (p r : Nat)
    (hp : p < 4294967296) (hr : r < 4294967296)
    (hpress : pressPending s₁ p)
    (hw : hardwareStep (TIM2_IRQHandler s₁) s₂)
    (hrel : releasePending s₂ r) :
    (TIM2_IRQHandler s₂).counter = (TIM2_IRQHandler s₂).TIM4.ARR ∧
    (((TIM2_IRQHandler s₂).TIM4.ARR : Nat) : Int) = ((r : Int) - (p : Int)) % 4294967296 ∧
    (p ≤ r → (TIM2_IRQHandler s₂).TIM4.ARR = r - p) ∧
    (r < p → (TIM2_IRQHandler s₂).TIM4.ARR = 4294967296 - (p - r)) := by
  have hc : s₂.counter = p := by rw [hw.1, press_stores s₁ p hpress]
  obtain ⟨harr, hcnt⟩ := release_arms s₂ r hrel
  rw [hc] at harr hcnt
  refine ⟨by rw [harr, hcnt], ?_, ?_, ?_⟩
  · rw [harr]; exact u32_sub_int r p hr hp
  · intro h; rw [harr]; exact u32_sub_of_le r p hr h
  · intro h; rw [harr]; exact u32_sub_of_lt r p hp h

/-- Witness for C1 in the wraparound case: PRESS at `2^32 - 6`, RELEASE at 4
    arm a duration of 10. -/
theorem C1_release_after_press_duration_witness :
    pressPending (risingEdge 4294967290 configured) 4294967290 ∧
    hardwareStep (TIM2_IRQHandler (risingEdge 4294967290 configured))
      (releaseAfterPress 4294967290 4) ∧
    releasePending (releaseAfterPress 4294967290 4) 4 ∧
    (TIM2_IRQHandler (releaseAfterPress 4294967290 4)).TIM4.ARR = 10 :=
  ⟨by decide, by decide, by decide,
    (C1_release_after_press_duration (risingEdge 4294967290 configured)
      (releaseAfterPress 4294967290 4) 4294967290 4 (by decide) (by decide)
      (by decide) (by decide) (by decide)).2.2.2 (by decide)⟩

/-- C2 fails as stated: with both capture flags pending on entry, CC2 is
    still pending when `TIM2_IRQHandler` returns. -/
theorem C2_both_pending_leaves_CC2 :
    bothEdgesPending.TIM2.SR = 7 ∧ bothEdgesPending.TIM2.DIER = 6 ∧
    (TIM2_IRQHandler bothEdgesPending).TIM2.SR = 5 ∧
    TIM_GetITStatus bothEdgesPending.TIM2 TIM_IT_CC1 = true ∧
    TIM_GetITStatus bothEdgesPending.TIM2 TIM_IT_CC2 = true ∧
    ¬ (TIM_GetITStatus (TIM2_IRQHandler bothEdgesPending).TIM2 TIM_IT_CC2 = false) := by
  decide

/-- C2, amended: for every entry state `TIM2_IRQHandler` acknowledges the one
    event it handles.  CC1 is never pending on return; CC2 is still pending on
    return exactly when both CC1 and CC2 were pending on entry, and then the
    next invocation acknowledges it. -/
theorem C2_acknowledges_handled_event (s : State) :
    TIM_GetITStatus (TIM2_IRQHandler s).TIM2 TIM_IT_CC1 = false ∧
    TIM_GetITStatus (TIM2_IRQHandler s).TIM2 TIM_IT_CC2 =
      (TIM_GetITStatus s.TIM2 TIM_IT_CC1 && TIM_GetITStatus s.TIM2 TIM_IT_CC2) ∧
    TIM_GetITStatus (TIM2_IRQHandler (TIM2_IRQHandler s)).TIM2 TIM_IT_CC1 = false ∧
    TIM_GetITStatus (TIM2_IRQHandler (TIM2_IRQHandler s)).TIM2 TIM_IT_CC2 = false := by
  have once : ∀ u : State,
      TIM_GetITStatus (TIM2_IRQHandler u).TIM2 TIM_IT_CC1 = false ∧
      TIM_GetITStatus (TIM2_IRQHandler u).TIM2 TIM_IT_CC2 =
        (TIM_GetITStatus u.TIM2 TIM_IT_CC1 && TIM_GetITStatus u.TIM2 TIM_IT_CC2) := by
    intro u
    cases h1 : TIM_GetITStatus u.TIM2 TIM_IT_CC1
    · cases h2 : TIM_GetITStatus u.TIM2 TIM_IT_CC2
      · rw [TIM2_IRQHandler_idle u h1 h2]; simp [h1, h2]
      · rw [TIM2_IRQHandler_press u h1 h2]
        refine ⟨?_, ?_⟩
        · rw [← h1]; exact TIM_GetITStatus_clear_other u.TIM2 _ _ (by decide)
        · simpa using TIM_GetITStatus_clear_self u.TIM2 TIM_IT_CC2
    · rw [TIM2_IRQHandler_release u h1]
      refine ⟨TIM_GetITStatus_clear_self u.TIM2 TIM_IT_CC1, ?_⟩
      simpa using TIM_GetITStatus_clear_other u.TIM2 TIM_IT_CC1 TIM_IT_CC2 (by decide)
  obtain ⟨a1, a2⟩ := once s
  obtain ⟨b1, b2⟩ := once (TIM2_IRQHandler s)
  refine ⟨a1, a2, b1, ?_⟩
  rw [b2, a1]; rfl

/-- C3 fails as stated: handling the RELEASE at 250 that follows a PRESS at 10
    changes `counter` from 10 to 240. -/
theorem C3_release_overwrites_counter :
    (releaseAfterPress 10 250).TIM2.SR = 3 ∧ (releaseAfterPress 10 250).TIM2.DIER = 6 ∧
    (releaseAfterPress 10 250).TIM2.CCR1 = 250 ∧
    releasePending (releaseAfterPress 10 250) 250 ∧
    (releaseAfterPress 10 250).counter = 10 ∧
    (TIM2_IRQHandler (releaseAfterPress 10 250)).counter = 240 ∧
    ¬ ((TIM2_IRQHandler (releaseAfterPress 10 250)).counter =
        (releaseAfterPress 10 250).counter) := by
  decide

/-- C3, amended: handling a RELEASE with capture-1 value `r` reads the stored
    press tick and replaces it: afterwards `counter` holds the duration
    `(r - counter) mod 2^32`, the value written to TIM4's ARR. -/
theorem C3_release_replaces_counter_by_duration (s : State) (r : Nat)
    (hrel : releasePending s r) :
    (TIM2_IRQHandler s).counter = u32_sub r s.counter ∧
    (TIM2_IRQHandler s).counter = (TIM2_IRQHandler s).TIM4.ARR := by
  obtain ⟨harr, hcnt⟩ := release_arms s r hrel
  exact ⟨hcnt, by rw [harr, hcnt]⟩

/-- Witness for the amended C3: RELEASE at 250 with stored press tick 10. -/
theorem C3_release_replaces_counter_by_duration_witness :
    releasePending (releaseAfterPress 10 250) 250 ∧
    (TIM2_IRQHandler (releaseAfterPress 10 250)).counter =
      u32_sub 250 (releaseAfterPress 10 250).counter ∧
    (TIM2_IRQHandler (releaseAfterPress 10 250)).counter =
      (TIM2_IRQHandler (releaseAfterPress 10 250)).TIM4.ARR :=
  ⟨by decide, C3_release_replaces_counter_by_duration (releaseAfterPress 10 250) 250 (by decide)⟩

/-- C4 fails as stated: when TIM4's update interrupt is pending while LED pin
    14 is off, the LED is on after `TIM4_IRQHandler` returns. -/
theorem C4_expiry_with_led_off_lights_led :
    expiryWithLedOff.TIM4.SR = 1 ∧ expiryWithLedOff.TIM4.DIER = 1 ∧
    expiryWithLedOff.GPIOD.ODR = 0 ∧ (TIM4_IRQHandler expiryWithLedOff).GPIOD.ODR = 0x4000 ∧
    TIM_GetITStatus expiryWithLedOff.TIM4 TIM_IT_Update = true ∧
    GPIO_ReadOutputDataBit expiryWithLedOff.GPIOD GPIO_Pin_14 = false ∧
    ¬ (GPIO_ReadOutputDataBit (TIM4_IRQHandler expiryWithLedOff).GPIOD GPIO_Pin_14 = false) := by
  decide

/-- C4, amended: when TIM4's update interrupt is pending, `TIM4_IRQHandler`
    toggles LED pin 14; the LED is off on return exactly when it was on at
    entry. -/
theorem C4_expiry_toggles_timed_led (s : State)
    (hupd : TIM_GetITStatus s.TIM4 TIM_IT_Update = true) :
    GPIO_ReadOutputDataBit (TIM4_IRQHandler s).GPIOD GPIO_Pin_14 =
      !GPIO_ReadOutputDataBit s.GPIOD GPIO_Pin_14 :=
  expiry_toggles s hupd

/-- Witness for the amended C4: the timer expires after the RELEASE handler
    lit the LED, and the LED goes off. -/
theorem C4_expiry_toggles_timed_led_witness :
    TIM_GetITStatus
      (ledTimerExpires (TIM2_IRQHandler (releaseAfterPress 10 250))).TIM4 TIM_IT_Update = true ∧
    GPIO_ReadOutputDataBit
      (ledTimerExpires (TIM2_IRQHandler (releaseAfterPress 10 250))).GPIOD GPIO_Pin_14 = true ∧
    GPIO_ReadOutputDataBit
      (TIM4_IRQHandler
        (ledTimerExpires (TIM2_IRQHandler (releaseAfterPress 10 250)))).GPIOD GPIO_Pin_14 =
      !GPIO_ReadOutputDataBit
        (ledTimerExpires (TIM2_IRQHandler (releaseAfterPress 10 250))).GPIOD GPIO_Pin_14 :=
  ⟨by decide, by decide,
    C4_expiry_toggles_timed_led
      (ledTimerExpires (TIM2_IRQHandler (releaseAfterPress 10 250))) (by decide)⟩

end Basic8

namespace Basic8

/-! ## Auto-reload preload, back-to-back cycles and the LED pulse -/

theorem SetupLEDTimer_disables_preload (clk : Nat) (s₀ : State) :
    (SetupLEDTimer clk s₀).TIM4.CR1 &&& TIM_CR1_ARPE = 0 := by
  have h1 : not16 TIM_CR1_OPM &&& TIM_CR1_ARPE = TIM_CR1_ARPE := by decide
  have h2 : TIM_OPMode_Single &&& TIM_CR1_ARPE = 0 := by decide
  have h3 : not16 TIM_CR1_ARPE &&& TIM_CR1_ARPE = 0 := by decide
  simp only [SetupLEDTimer, TIM_ITConfig, TIM_SelectOnePulseMode, TIM_ARRPreloadConfig,
    TIM_SelectInputTrigger, TIM_SelectSlaveMode, TIM_ClearITPendingBit]
  simp [Nat.and_distrib_right, Nat.and_assoc, h1, h2, h3]

theorem release_shadow (s : State) (r : Nat) (hrel : releasePending s r)
    (hpre : s.TIM4.CR1 &&& TIM_CR1_ARPE = 0) :
    (TIM2_IRQHandler s).TIM4.ARR_shadow = u32_sub r s.counter := by
  obtain ⟨h1, h2⟩ := hrel
  rw [TIM2_IRQHandler_release s h1, h2]
  simp [TIM_SetAutoreload, hpre]

theorem release_leds (s : State) (r : Nat) (hrel : releasePending s r) :
    GPIO_ReadOutputDataBit (TIM2_IRQHandler s).GPIOD GPIO_Pin_12 = false ∧
    GPIO_ReadOutputDataBit (TIM2_IRQHandler s).GPIOD GPIO_Pin_14 = true := by
  obtain ⟨h1, _⟩ := hrel
  rw [TIM2_IRQHandler_release s h1]
  refine ⟨?_, GPIO_read_set_self _ _ (by decide)⟩
  show GPIO_ReadOutputDataBit (GPIO_SetBits (GPIO_ResetBits s.GPIOD GPIO_Pin_12) GPIO_Pin_14)
    GPIO_Pin_12 = false
  rw [GPIO_read_set_other _ _ _ (by decide)]
  exact GPIO_read_reset_self _ _

theorem press_effect (s : State) (p : Nat) (hpress : pressPending s p) :
    (TIM2_IRQHandler s).TIM4 = s.TIM4 ∧
    GPIO_ReadOutputDataBit (TIM2_IRQHandler s).GPIOD GPIO_Pin_12 = true ∧
    GPIO_ReadOutputDataBit (TIM2_IRQHandler s).GPIOD GPIO_Pin_14 =
      GPIO_ReadOutputDataBit s.GPIOD GPIO_Pin_14 := by
  obtain ⟨h1, h2, _⟩ := hpress
  rw [TIM2_IRQHandler_press s h1 h2]
  exact ⟨rfl, GPIO_read_set_self _ _ (by decide), GPIO_read_set_other _ _ _ (by decide)⟩

/-- C5 fails as stated: in the overrun run (PRESS 0, RELEASE 100, PRESS 50,
    RELEASE 80) TIM4 is counting with an active reload value of 100 and the
    preload setting of `SetupLEDTimer`; handling the second RELEASE changes
    the active reload value at once. -/
theorem C5_release_changes_running_reload :
    secondReleasePending.TIM2.SR = 3 ∧ secondReleasePending.TIM2.DIER = 6 ∧
    secondReleasePending.TIM2.CCR1 = 80 ∧ secondReleasePending.counter = 50 ∧
    secondReleasePending.TIM4.CR1 = 9 ∧
    releasePending secondReleasePending 80 ∧
    secondReleasePending.TIM4.CR1 &&& TIM_CR1_CEN = TIM_CR1_CEN ∧
    secondReleasePending.TIM4.CR1 &&& TIM_CR1_ARPE =
      (SetupLEDTimer 16000000 resetState).TIM4.CR1 &&& TIM_CR1_ARPE ∧
    secondReleasePending.TIM4.ARR_shadow = 100 ∧
    (TIM2_IRQHandler secondReleasePending).TIM4.ARR_shadow = 30 ∧
    ¬ ((TIM2_IRQHandler secondReleasePending).TIM4.ARR_shadow =
        secondReleasePending.TIM4.ARR_shadow) := by
  decide

/-- C5, amended: `SetupLEDTimer` disables the auto-reload preload of TIM4
    (ARPE = 0), so in every state with that setting the auto-reload value
    written by the RELEASE handler is the active reload value as soon as the
    handler returns, also while TIM4 is counting. -/
theorem C5_release_reload_effective_immediately (clk : Nat) (s₀ s : State) (r : Nat)
    (hcfg : s.TIM4.CR1 &&& TIM_CR1_ARPE = (SetupLEDTimer clk s₀).TIM4.CR1 &&& TIM_CR1_ARPE)
    (hrel : releasePending s r) :
    (SetupLEDTimer clk s₀).TIM4.CR1 &&& TIM_CR1_ARPE = 0 ∧
    (TIM2_IRQHandler s).TIM4.ARR = u32_sub r s.counter ∧
    (TIM2_IRQHandler s).TIM4.ARR_shadow = u32_sub r s.counter := by
  have hpre := SetupLEDTimer_disables_preload clk s₀
  exact ⟨hpre, (release_arms s r hrel).1, release_shadow s r hrel (hcfg.trans hpre)⟩

/-- Witness for the amended C5: the second RELEASE of the overrun run. -/
theorem C5_release_reload_effective_immediately_witness :
    secondReleasePending.TIM4.CR1 &&& TIM_CR1_ARPE =
      (SetupLEDTimer 16000000 resetState).TIM4.CR1 &&& TIM_CR1_ARPE ∧
    releasePending secondReleasePending 80 ∧
    (SetupLEDTimer 16000000 resetState).TIM4.CR1 &&& TIM_CR1_ARPE = 0 ∧
    (TIM2_IRQHandler secondReleasePending).TIM4.ARR = u32_sub 80 secondReleasePending.counter ∧
    (TIM2_IRQHandler secondReleasePending).TIM4.ARR_shadow =
      u32_sub 80 secondReleasePending.counter :=
  ⟨by decide, by decide,
    C5_release_reload_effective_immediately 16000000 resetState secondReleasePending 80
      (by decide) (by decide)⟩

/-- C6: after PRESS at `p1`, RELEASE at `r1`, PRESS at `p2`, RELEASE at `r2`,
    each handled by `TIM2_IRQHandler` with the hardware acting in between,
    the second RELEASE finds the first duration `(r1 - p1) mod 2^32` in TIM4's
    ARR and overwrites it with `(r2 - p2) mod 2^32`, whatever the first cycle
    was. -/
theorem C6_second_cycle_overwrites_reload (s₁ s₂ s₃ s₄ : State) (p1 r1 p2 r2 : Nat)
    (hp2 : p2 < 4294967296) (hr2 : r2 < 4294967296)
    (hpress₁ : pressPending s₁ p1)
    (hw₁ : hardwareStep (TIM2_IRQHandler s₁) s₂)
    (hrel₁ : releasePending s₂ r1)
    (hw₂ : hardwareStep (TIM2_IRQHandler s₂) s₃)
    (hpress₂ : pressPending s₃ p2)
    (hw₃ : hardwareStep (TIM2_IRQHandler s₃) s₄)
    (hrel₂ : releasePending s₄ r2) :
    s₄.TIM4.ARR = u32_sub r1 p1 ∧
    (TIM2_IRQHandler s₄).TIM4.ARR = u32_sub r2 p2 ∧
    (((TIM2_IRQHandler s₄).TIM4.ARR : Nat) : Int) =
      ((r2 : Int) - (p2 : Int)) % 4294967296 := by
  have hc₂ : s₂.counter = p1 := by rw [hw₁.1, press_stores s₁ p1 hpress₁]
  have hc₄ : s₄.counter = p2 := by rw [hw₃.1, press_stores s₃ p2 hpress₂]
  have ha₂ := (release_arms s₂ r1 hrel₁).1
  have ha₄ := (release_arms s₄ r2 hrel₂).1
  rw [hc₂] at ha₂
  rw [hc₄] at ha₄
  have hold : s₄.TIM4.ARR = u32_sub r1 p1 := by
    rw [hw₃.2.2.1, (press_effect s₃ p2 hpress₂).1, hw₂.2.2.1, ha₂]
  exact ⟨hold, ha₄, by rw [ha₄]; exact u32_sub_int r2 p2 hr2 hp2⟩

/-- Witness for C6: PRESS 0, RELEASE 100, PRESS 50, RELEASE 80 arm 30. -/
theorem C6_second_cycle_overwrites_reload_witness :
    pressPending (risingEdge 0 configured) 0 ∧
    hardwareStep (TIM2_IRQHandler (risingEdge 0 configured)) (releaseAfterPress 0 100) ∧
    releasePending (releaseAfterPress 0 100) 100 ∧
    hardwareStep (TIM2_IRQHandler (releaseAfterPress 0 100))
      (risingEdge 50 (TIM2_IRQHandler (releaseAfterPress 0 100))) ∧
    pressPending (risingEdge 50 (TIM2_IRQHandler (releaseAfterPress 0 100))) 50 ∧
    hardwareStep (TIM2_IRQHandler (risingEdge 50 (TIM2_IRQHandler (releaseAfterPress 0 100))))
      secondReleasePending ∧
    releasePending secondReleasePending 80 ∧
    secondReleasePending.TIM4.ARR = 100 ∧
    (TIM2_IRQHandler secondReleasePending).TIM4.ARR = 30 :=
  have h := C6_second_cycle_overwrites_reload (risingEdge 0 configured)
    (releaseAfterPress 0 100) (risingEdge 50 (TIM2_IRQHandler (releaseAfterPress 0 100)))
    secondReleasePending 0 100 50 80 (by decide) (by decide) (by decide) (by decide)
    (by decide) (by decide) (by decide) (by decide) (by decide)
  ⟨by decide, by decide, by decide, by decide, by decide, by decide, by decide,
    h.1.trans (by decide), h.2.1.trans (by decide)⟩

/-- C7: from the reset value of `counter` (0, no PRESS handled yet), a first
    RELEASE at tick `t` yields the duration `t - 0 = t` and arms TIM4 with
    `t`. -/
theorem C7_first_release_from_reset (s : State) (t : Nat) (ht : t < 4294967296)
    (hreset : s.counter = resetState.counter)
    (hrel : releasePending s t) :
    resetState.counter = 0 ∧
    (TIM2_IRQHandler s).counter = t ∧ (TIM2_IRQHandler s).TIM4.ARR = t := by
  obtain ⟨harr, hcnt⟩ := release_arms s t hrel
  have h0 : s.counter = 0 := hreset
  rw [h0, u32_sub_of_le t 0 ht (Nat.zero_le t)] at harr hcnt
  exact ⟨rfl, hcnt, harr⟩

/-- Witness for C7: RELEASE at 5 with no prior PRESS yields 5. -/
theorem C7_first_release_from_reset_witness :
    (fallingEdge 5 configured).counter = resetState.counter ∧
    releasePending (fallingEdge 5 configured) 5 ∧
    (TIM2_IRQHandler (fallingEdge 5 configured)).counter = 5 ∧
    (TIM2_IRQHandler (fallingEdge 5 configured)).TIM4.ARR = 5 :=
  ⟨by decide, by decide,
    (C7_first_release_from_reset (fallingEdge 5 configured) 5 (by decide) (by decide)
      (by decide)).2⟩

end Basic8

namespace Basic8

/-- C8: starting with the timed LED (pin 14) off, PRESS at `p` handled,
    RELEASE at `r` handled and one TIM4 update interrupt handled leave the LED
    off after the PRESS, on after the RELEASE and off after `TIM4_IRQHandler`,
    so the observed levels contain exactly one ON-to-OFF transition, and the
    reload is armed at `(r - p) mod 2^32`. -/
theorem C8_press_release_expiry_pulse (s₁ s₂ s₃ : State) (p r : Nat)
    (hp : p < 4294967296) (hr : r < 4294967296)
    (hoff : GPIO_ReadOutputDataBit s₁.GPIOD GPIO_Pin_14 = false)
    (hpress : pressPending s₁ p)
    (hw₁ : hardwareStep (TIM2_IRQHandler s₁) s₂)
    (hrel : releasePending s₂ r)
    (hw₂ : hardwareStep (TIM2_IRQHandler s₂) s₃)
    (hupd : TIM_GetITStatus s₃.TIM4 TIM_IT_Update = true) :
    GPIO_ReadOutputDataBit (TIM2_IRQHandler s₁).GPIOD GPIO_Pin_14 = false ∧
    GPIO_ReadOutputDataBit (TIM2_IRQHandler s₂).GPIOD GPIO_Pin_14 = true ∧
    GPIO_ReadOutputDataBit (TIM4_IRQHandler s₃).GPIOD GPIO_Pin_14 = false ∧
    onOffTransitions
      [GPIO_ReadOutputDataBit s₁.GPIOD GPIO_Pin_14,
       GPIO_ReadOutputDataBit (TIM2_IRQHandler s₁).GPIOD GPIO_Pin_14,
       GPIO_ReadOutputDataBit s₂.GPIOD GPIO_Pin_14,
       GPIO_ReadOutputDataBit (TIM2_IRQHandler s₂).GPIOD GPIO_Pin_14,
       GPIO_ReadOutputDataBit s₃.GPIOD GPIO_Pin_14,
       GPIO_ReadOutputDataBit (TIM4_IRQHandler s₃).GPIOD GPIO_Pin_14] = 1 ∧
    (TIM4_IRQHandler s₃).TIM4.ARR = (TIM2_IRQHandler s₂).TIM4.ARR ∧
    (((TIM2_IRQHandler s₂).TIM4.ARR : Nat) : Int) =
      ((r : Int) - (p : Int)) % 4294967296 := by
  have e₁ : GPIO_ReadOutputDataBit (TIM2_IRQHandler s₁).GPIOD GPIO_Pin_14 = false := by
    rw [(press_effect s₁ p hpress).2.2, hoff]
  have e₂ : GPIO_ReadOutputDataBit s₂.GPIOD GPIO_Pin_14 = false := by
    rw [hw₁.2.1, e₁]
  have e₃ := (release_leds s₂ r hrel).2
  have e₄ : GPIO_ReadOutputDataBit s₃.GPIOD GPIO_Pin_14 = true := by
    rw [hw₂.2.1, e₃]
  have e₅ : GPIO_ReadOutputDataBit (TIM4_IRQHandler s₃).GPIOD GPIO_Pin_14 = false := by
    rw [expiry_toggles s₃ hupd, e₄]; rfl
  have harr : (TIM4_IRQHandler s₃).TIM4.ARR = (TIM2_IRQHandler s₂).TIM4.ARR := by
    rw [TIM4_IRQHandler_update s₃ hupd]
    exact hw₂.2.2.1
  have hc : s₂.counter = p := by rw [hw₁.1, press_stores s₁ p hpress]
  have hd := (release_arms s₂ r hrel).1
  rw [hc] at hd
  refine ⟨e₁, e₃, e₅, ?_, harr, by rw [hd]; exact u32_sub_int r p hr hp⟩
  rw [hoff, e₁, e₂, e₃, e₄, e₅]
  rfl

/-- Witness for C8: PRESS at 10, RELEASE at 250, then TIM4 expires; the
    reload is armed at 240. -/
theorem C8_press_release_expiry_pulse_witness :
    GPIO_ReadOutputDataBit (risingEdge 10 configured).GPIOD GPIO_Pin_14 = false ∧
    pressPending (risingEdge 10 configured) 10 ∧
    hardwareStep (TIM2_IRQHandler (risingEdge 10 configured)) (releaseAfterPress 10 250) ∧
    releasePending (releaseAfterPress 10 250) 250 ∧
    hardwareStep (TIM2_IRQHandler (releaseAfterPress 10 250))
      (ledTimerExpires (TIM2_IRQHandler (releaseAfterPress 10 250))) ∧
    TIM_GetITStatus
      (ledTimerExpires (TIM2_IRQHandler (releaseAfterPress 10 250))).TIM4 TIM_IT_Update = true ∧
    GPIO_ReadOutputDataBit (TIM2_IRQHandler (releaseAfterPress 10 250)).GPIOD GPIO_Pin_14 = true ∧
    GPIO_ReadOutputDataBit
      (TIM4_IRQHandler
        (ledTimerExpires (TIM2_IRQHandler (releaseAfterPress 10 250)))).GPIOD GPIO_Pin_14 = false ∧
    (TIM2_IRQHandler (releaseAfterPress 10 250)).TIM4.ARR = 240 :=
  have h := C8_press_release_expiry_pulse (risingEdge 10 configured) (releaseAfterPress 10 250)
    (ledTimerExpires (TIM2_IRQHandler (releaseAfterPress 10 250))) 10 250
    (by decide) (by decide) (by decide) (by decide) (by decide) (by decide) (by decide)
    (by decide)
  ⟨by decide, by decide, by decide, by decide, by decide, by decide, h.2.1, h.2.2.1, by decide⟩

/-- C9: handling a PRESS (only CC2 pending, capture-2 value `t`) stores `t` in
    `counter` and turns the edge indicator, LED pin 12, on. -/
theorem C9_press_stores_tick_and_lights_indicator (s : State) (t : Nat)
    (hpress : pressPending s t) :
    (TIM2_IRQHandler s).counter = t ∧
    GPIO_ReadOutputDataBit (TIM2_IRQHandler s).GPIOD GPIO_Pin_12 = true :=
  ⟨press_stores s t hpress, (press_effect s t hpress).2.1⟩

/-- Witness for C9: a PRESS at tick 10 in the configured system. -/
theorem C9_press_stores_tick_and_lights_indicator_witness :
    pressPending (risingEdge 10 configured) 10 ∧
    (TIM2_IRQHandler (risingEdge 10 configured)).counter = 10 ∧
    GPIO_ReadOutputDataBit (TIM2_IRQHandler (risingEdge 10 configured)).GPIOD GPIO_Pin_12 = true :=
  ⟨by decide, C9_press_stores_tick_and_lights_indicator (risingEdge 10 configured) 10 (by decide)⟩

/-- C10: handling a PRESS computes no duration: TIM4, and with it the
    auto-reload value, and the timed LED on pin 14 are left as they were. -/
theorem C10_press_leaves_reload_and_timed_led (s : State) (t : Nat)
    (hpress : pressPending s t) :
    (TIM2_IRQHandler s).TIM4.ARR = s.TIM4.ARR ∧
    (TIM2_IRQHandler s).TIM4 = s.TIM4 ∧
    GPIO_ReadOutputDataBit (TIM2_IRQHandler s).GPIOD GPIO_Pin_14 =
      GPIO_ReadOutputDataBit s.GPIOD GPIO_Pin_14 := by
  obtain ⟨h1, _, h3⟩ := press_effect s t hpress
  exact ⟨by rw [h1], h1, h3⟩

/-- Witness for C10: the second PRESS of the overrun run, taken while the
    timed LED is on and 100 is armed. -/
theorem C10_press_leaves_reload_and_timed_led_witness :
    pressPending (risingEdge 50 (TIM2_IRQHandler (releaseAfterPress 0 100))) 50 ∧
    (TIM2_IRQHandler (risingEdge 50 (TIM2_IRQHandler (releaseAfterPress 0 100)))).TIM4.ARR = 100 ∧
    GPIO_ReadOutputDataBit
      (TIM2_IRQHandler (risingEdge 50 (TIM2_IRQHandler (releaseAfterPress 0 100)))).GPIOD
      GPIO_Pin_14 = true :=
  have h := C10_press_leaves_reload_and_timed_led
    (risingEdge 50 (TIM2_IRQHandler (releaseAfterPress 0 100))) 50 (by decide)
  ⟨by decide, h.1.trans (by decide), h.2.2.trans (by decide)⟩

end Basic8

namespace Basic8

/-! ## Edge sequences, idempotence of the expiry handler, the counter-enable bit -/

theorem fallingEdge_TIM2 (r : Nat) (s : State) :
    (fallingEdge r s).TIM2 = { s.TIM2 with CCR1 := r, SR := s.TIM2.SR ||| TIM_IT_CC1 } ∧
    (fallingEdge r s).GPIOD = s.GPIOD ∧ (fallingEdge r s).counter = s.counter := by
  simp only [fallingEdge]
  by_cases h : s.TIM4.SMCR &&& TIM_SMCR_SMS = TIM_SlaveMode_Trigger ∧
      s.TIM4.SMCR &&& TIM_SMCR_TS = TIM_TS_ITR1
  · rw [if_pos h]; exact ⟨rfl, rfl, rfl⟩
  · rw [if_neg h]; exact ⟨rfl, rfl, rfl⟩

theorem TIM_GetITStatus_of_bits (t : TIM_TypeDef) (it : Nat)
    (hsr : t.SR &&& it ≠ 0) (hen : t.DIER &&& it ≠ 0) : TIM_GetITStatus t it = true := by
  simp [TIM_GetITStatus, hsr, hen]

theorem TIM_GetITStatus_of_clear (t : TIM_TypeDef) (it : Nat)
    (hsr : t.SR &&& it = 0) : TIM_GetITStatus t it = false := by
  simp [TIM_GetITStatus, hsr]

theorem or_flag_and_other (x a b : Nat) (hx : x &&& b = 0) (hab : a &&& b = 0) :
    (x ||| a) &&& b = 0 := by
  rw [Nat.and_distrib_right, hx, hab]; rfl

theorem handleEdge_keeps_idle (s : State) (e : Edge) (hidle : captureIdle s) :
    captureIdle (handleEdge s e) ∧
    GPIO_ReadOutputDataBit (handleEdge s e).GPIOD GPIO_Pin_12 = e.isPress := by
  obtain ⟨h1, h2, h3, h4⟩ := hidle
  have hz : TIM_IT_CC2 &&& TIM_IT_CC1 = 0 := by decide
  have hz' : TIM_IT_CC1 &&& TIM_IT_CC2 = 0 := by decide
  cases e with
  | PRESS p =>
    have hsr1 : (risingEdge p s).TIM2.SR &&& TIM_IT_CC1 = 0 :=
      or_flag_and_other _ _ _ h1 hz
    have hsr2 : (risingEdge p s).TIM2.SR &&& TIM_IT_CC2 ≠ 0 := by
      show (s.TIM2.SR ||| TIM_IT_CC2) &&& TIM_IT_CC2 ≠ 0
      rw [or_and_self_mask]; decide
    have hp : pressPending (risingEdge p s) p :=
      ⟨TIM_GetITStatus_of_clear _ _ hsr1, TIM_GetITStatus_of_bits _ _ hsr2 h4, rfl⟩
    refine ⟨?_, (press_effect _ p hp).2.1⟩
    show captureIdle (TIM2_IRQHandler (risingEdge p s))
    rw [TIM2_IRQHandler_press _ hp.1 hp.2.1]
    refine ⟨?_, and_not16_and_self _ _, h3, h4⟩
    show ((risingEdge p s).TIM2.SR &&& not16 TIM_IT_CC2) &&& TIM_IT_CC1 = 0
    have hm : not16 TIM_IT_CC2 &&& TIM_IT_CC1 = TIM_IT_CC1 := by decide
    rw [Nat.and_assoc, hm, hsr1]
  | RELEASE r =>
    obtain ⟨f1, _, _⟩ := fallingEdge_TIM2 r s
    have hsr2 : (fallingEdge r s).TIM2.SR &&& TIM_IT_CC2 = 0 := by
      rw [f1]; exact or_flag_and_other _ _ _ h2 hz'
    have hsr1 : (fallingEdge r s).TIM2.SR &&& TIM_IT_CC1 ≠ 0 := by
      rw [f1]
      show (s.TIM2.SR ||| TIM_IT_CC1) &&& TIM_IT_CC1 ≠ 0
      rw [or_and_self_mask]; decide
    have hen1 : (fallingEdge r s).TIM2.DIER &&& TIM_IT_CC1 ≠ 0 := by rw [f1]; exact h3
    have hen2 : (fallingEdge r s).TIM2.DIER &&& TIM_IT_CC2 ≠ 0 := by rw [f1]; exact h4
    have hr : releasePending (fallingEdge r s) r :=
      ⟨TIM_GetITStatus_of_bits _ _ hsr1 hen1, by rw [f1]⟩
    refine ⟨?_, (release_leds _ r hr).1⟩
    show captureIdle (TIM2_IRQHandler (fallingEdge r s))
    rw [TIM2_IRQHandler_release _ hr.1]
    refine ⟨and_not16_and_self _ _, ?_, hen1, hen2⟩
    show ((fallingEdge r s).TIM2.SR &&& not16 TIM_IT_CC1) &&& TIM_IT_CC2 = 0
    have hm : not16 TIM_IT_CC1 &&& TIM_IT_CC2 = TIM_IT_CC2 := by decide
    rw [Nat.and_assoc, hm, hsr2]

theorem handleEdges_keeps_idle (es : List Edge) (s : State) (hidle : captureIdle s) :
    captureIdle (handleEdges s es) := by
  induction es generalizing s with
  | nil => exact hidle
  | cons e rest ih => exact ih (handleEdge s e) (handleEdge_keeps_idle s e hidle).1

end Basic8

namespace Basic8

theorem SetupLEDTimer_CR1_from_reset (clk : Nat) :
    (SetupLEDTimer clk resetState).TIM4.CR1 = TIM_CR1_OPM := by
  simp only [SetupLEDTimer, TIM_ITConfig, TIM_SelectOnePulseMode, TIM_ARRPreloadConfig,
    TIM_SelectInputTrigger, TIM_SelectSlaveMode, TIM_ClearITPendingBit, TIM_TimeBaseInit,
    TIM_SetAutoreload, TIM_GenerateUpdate, updateEvent, resetState]
  simp [not16, TIM_CR1_DIR, TIM_CR1_CMS, TIM_CounterMode_Up, TIM_CR1_CKD, TIM_CKD_DIV1,
    TIM_CR1_UDIS, TIM_CR1_OPM, TIM_CR1_ARPE, TIM_CR1_CEN, TIM_CR1_URS, TIM_OPMode_Single]

/-- C11: for every sequence of PRESS/RELEASE edges, each captured and handled
    by its own invocation of `TIM2_IRQHandler`, starting with no capture
    event waiting: after the invocation for the last edge `e` of every
    non-empty prefix, LED pin 12 is on exactly when `e` is a PRESS, and no
    capture event is left waiting. -/
theorem C11_edge_indicator_follows_last_edge (s : State) (hidle : captureIdle s)
    (es : List Edge) (e : Edge) :
    GPIO_ReadOutputDataBit (handleEdges s (es ++ [e])).GPIOD GPIO_Pin_12 = e.isPress ∧
    captureIdle (handleEdges s (es ++ [e])) := by
  have hfold : handleEdges s (es ++ [e]) = handleEdge (handleEdges s es) e := by
    simp [handleEdges, List.foldl_append]
  rw [hfold]
  obtain ⟨hi, hled⟩ := handleEdge_keeps_idle (handleEdges s es) e (handleEdges_keeps_idle es s hidle)
  exact ⟨hled, hi⟩

/-- Witness for C11: PRESS 10, RELEASE 250, PRESS 300 in the configured
    system; after the RELEASE the indicator is off, after the last PRESS on. -/
theorem C11_edge_indicator_follows_last_edge_witness :
    captureIdle configured ∧
    GPIO_ReadOutputDataBit
      (handleEdges configured [Edge.PRESS 10, Edge.RELEASE 250]).GPIOD GPIO_Pin_12 = false ∧
    GPIO_ReadOutputDataBit
      (handleEdges configured [Edge.PRESS 10, Edge.RELEASE 250, Edge.PRESS 300]).GPIOD
      GPIO_Pin_12 = true :=
  ⟨by decide,
    (C11_edge_indicator_follows_last_edge configured (by decide)
      [Edge.PRESS 10] (Edge.RELEASE 250)).1,
    (C11_edge_indicator_follows_last_edge configured (by decide)
      [Edge.PRESS 10, Edge.RELEASE 250] (Edge.PRESS 300)).1⟩

/-- C12: `TIM4_IRQHandler` is idempotent: for every state, a second
    invocation with no hardware event in between leaves the whole state (LED
    pin 14, pending flags, timer registers) as the first invocation left
    it. -/
theorem C12_expiry_handler_idempotent (s : State) :
    TIM4_IRQHandler (TIM4_IRQHandler s) = TIM4_IRQHandler s := by
  cases h : TIM_GetITStatus s.TIM4 TIM_IT_Update
  · rw [TIM4_IRQHandler_idle s h, TIM4_IRQHandler_idle s h]
  · rw [TIM4_IRQHandler_update s h]
    apply TIM4_IRQHandler_idle
    exact TIM_GetITStatus_clear_self s.TIM4 TIM_IT_Update

/-- C13: neither `TIM2_IRQHandler` nor `TIM4_IRQHandler` writes TIM4's CR1, so
    in every state the counter-enable bit CEN of TIM4 is after a handler what
    it was before; `SetupLEDTimer` run from reset leaves CEN clear and one
    pulse mode selected, so the timer starts by the trigger and stops by its
    own update event only. -/
theorem C13_handlers_leave_counter_enable (s : State) (clk : Nat) :
    (TIM2_IRQHandler s).TIM4.CR1 = s.TIM4.CR1 ∧
    (TIM4_IRQHandler s).TIM4.CR1 = s.TIM4.CR1 ∧
    (TIM2_IRQHandler s).TIM4.CR1 &&& TIM_CR1_CEN = s.TIM4.CR1 &&& TIM_CR1_CEN ∧
    (TIM4_IRQHandler s).TIM4.CR1 &&& TIM_CR1_CEN = s.TIM4.CR1 &&& TIM_CR1_CEN ∧
    (SetupLEDTimer clk resetState).TIM4.CR1 &&& TIM_CR1_CEN = 0 ∧
    (SetupLEDTimer clk resetState).TIM4.CR1 &&& TIM_CR1_OPM = TIM_CR1_OPM := by
  have h2 : (TIM2_IRQHandler s).TIM4.CR1 = s.TIM4.CR1 := by
    cases h1 : TIM_GetITStatus s.TIM2 TIM_IT_CC1
    · cases hc : TIM_GetITStatus s.TIM2 TIM_IT_CC2
      · rw [TIM2_IRQHandler_idle s h1 hc]
      · rw [TIM2_IRQHandler_press s h1 hc]
    · rw [TIM2_IRQHandler_release s h1]; rfl
  have h4 : (TIM4_IRQHandler s).TIM4.CR1 = s.TIM4.CR1 := by
    cases h : TIM_GetITStatus s.TIM4 TIM_IT_Update
    · rw [TIM4_IRQHandler_idle s h]
    · rw [TIM4_IRQHandler_update s h]; rfl
  refine ⟨h2, h4, by rw [h2], by rw [h4], ?_, ?_⟩
  · rw [SetupLEDTimer_CR1_from_reset]; decide
  · rw [SetupLEDTimer_CR1_from_reset]; decide

end Basic8

/-! ## More bit-level facts -/

theorem GPIO_read_toggle_bit (g : GPIO_TypeDef) (k : Nat) :
    GPIO_ReadOutputDataBit (GPIO_ToggleBits g (2 ^ k)) (2 ^ k) =
      !GPIO_ReadOutputDataBit g (2 ^ k) := by
  have hk : (2 : Nat) ^ k ≠ 0 := Nat.pos_iff_ne_zero.mp (Nat.two_pow_pos k)
  simp only [GPIO_ReadOutputDataBit, GPIO_ToggleBits, Nat.and_xor_distrib_right, Nat.and_self]
  rcases and_single_bit g.ODR k with h | h <;> simp [h, hk]

theorem set_reset_masked (x a nb m : Nat) :
    ((x ||| a) &&& nb) &&& m = ((x &&& m) ||| (a &&& m)) &&& nb := by
  apply Nat.eq_of_testBit_eq
  intro i
  simp only [Nat.testBit_and, Nat.testBit_or]
  cases x.testBit i <;> cases a.testBit i <;> cases nb.testBit i <;> cases m.testBit i <;> rfl

theorem masked_bit (x m k : Nat) (h : m &&& 2 ^ k = 2 ^ k) :
    x &&& 2 ^ k = (x &&& m) &&& 2 ^ k := by
  rw [Nat.and_assoc, h]

namespace Basic4

/-! ## Prescalers and the handlers of basic4.c -/

theorem GetPrescaler_succ (SystemCoreClock clock : Nat) (hpos : 0 < clock)
    (hle : clock ≤ SystemCoreClock) (hu32 : SystemCoreClock < 4294967296)
    (hfit : SystemCoreClock / clock ≤ 65536) :
    GetPrescaler SystemCoreClock clock + 1 = SystemCoreClock / clock := by
  have hq : 1 ≤ SystemCoreClock / clock := Nat.div_pos hle hpos
  have hc : clock % 4294967296 = clock := Nat.mod_eq_of_lt (by omega)
  have hs : SystemCoreClock % 4294967296 = SystemCoreClock := Nat.mod_eq_of_lt hu32
  simp only [GetPrescaler, hc, hs]
  rw [u32_sub_of_le _ 1 (by omega) hq]
  omega

theorem GetPrescaler_eq_basic8 (SystemCoreClock clock : Nat) :
    GetPrescaler SystemCoreClock clock = Basic8.GetPrescaler SystemCoreClock clock := rfl

theorem SetTimerClock_eq (clk : Nat) (t : TIM_TypeDef) (clockSpeed : Nat) :
    SetTimerClock clk t clockSpeed = { t with PSC := GetPrescaler clk clockSpeed } := by
  simp [SetTimerClock, TIM_PrescalerConfig, TIM_GenerateEvent, TIM_PSCReloadMode_Update]

theorem TIM6_DAC_IRQHandler_times (clk : Nat) (s : State) :
    (TIM6_DAC_IRQHandler clk s).times = (s.times + 1) % 4294967296 := by
  simp only [TIM6_DAC_IRQHandler]
  split_ifs <;> rfl

theorem TIM6_DAC_IRQHandler_iterate_times (clk : Nat) (s : State) (k : Nat) :
    ((TIM6_DAC_IRQHandler clk)^[k] s).times = (s.times + k) % 4294967296 ∨
    (k = 0 ∧ ((TIM6_DAC_IRQHandler clk)^[k] s).times = s.times) := by
  induction k with
  | zero => right; exact ⟨rfl, rfl⟩
  | succ k ih =>
    left
    rw [Function.iterate_succ_apply', TIM6_DAC_IRQHandler_times]
    rcases ih with h | ⟨h0, h⟩
    · rw [h]; omega
    · rw [h, h0]

end Basic4

namespace Basic4

/-- C14 fails as stated: at a 16 MHz core clock `GetPrescaler(6000)` (the
    value basic4.c programs into TIM7) is 2665 and the timer runs at
    `16000000 / 2666 = 6001`, not 6000; `GetPrescaler(1)` is truncated to 16
    bits, 9215, and the timer runs at 1736, not 1.  Both copies of the
    function agree. -/
theorem C14_prescaler_inexact :
    0 < 6000 ∧ 6000 ≤ 16000000 ∧
    GetPrescaler 16000000 6000 = 2665 ∧ Basic8.GetPrescaler 16000000 6000 = 2665 ∧
    16000000 / (GetPrescaler 16000000 6000 + 1) = 6001 ∧
    ¬ (16000000 / (GetPrescaler 16000000 6000 + 1) = 6000) ∧
    ¬ (16000000 / (Basic8.GetPrescaler 16000000 6000 + 1) = 6000) ∧
    GetPrescaler 16000000 1 = 9215 ∧
    ¬ (16000000 / (GetPrescaler 16000000 1 + 1) = 1) := by
  decide

/-- C14, amended: for a 32-bit `SystemCoreClock` and `0 < clock ≤
    SystemCoreClock` whose quotient fits the 16-bit prescaler
    (`SystemCoreClock / clock ≤ 65536`), both copies of `GetPrescaler` return
    `p` with `p + 1 = SystemCoreClock / clock` (rounded down); the timer then
    runs at `SystemCoreClock / (p + 1) ≥ clock`, and at exactly `clock` when
    `clock` divides `SystemCoreClock`. -/
theorem C14_prescaler_divides_clock (SystemCoreClock clock : Nat) (hpos : 0 < clock)
    (hle : clock ≤ SystemCoreClock) (hu32 : SystemCoreClock < 4294967296)
    (hfit : SystemCoreClock / clock ≤ 65536) :
    Basic8.GetPrescaler SystemCoreClock clock = GetPrescaler SystemCoreClock clock ∧
    GetPrescaler SystemCoreClock clock < 65536 ∧
    GetPrescaler SystemCoreClock clock + 1 = SystemCoreClock / clock ∧
    clock ≤ SystemCoreClock / (GetPrescaler SystemCoreClock clock + 1) ∧
    (clock ∣ SystemCoreClock →
      SystemCoreClock / (GetPrescaler SystemCoreClock clock + 1) = clock) := by
  have hp := GetPrescaler_succ SystemCoreClock clock hpos hle hu32 hfit
  have hq : 0 < SystemCoreClock / clock := Nat.div_pos hle hpos
  refine ⟨rfl, by omega, hp, ?_, ?_⟩
  · rw [hp, Nat.le_div_iff_mul_le hq]
    exact Nat.mul_div_le SystemCoreClock clock
  · intro hdvd
    rw [hp]
    exact Nat.div_div_self hdvd (by omega)

/-- Witness for the amended C14: 16 MHz and 1000 Hz give the prescaler 15999
    and exactly 1000 Hz. -/
theorem C14_prescaler_divides_clock_witness :
    0 < 1000 ∧ 1000 ≤ 16000000 ∧ 16000000 < 4294967296 ∧ 16000000 / 1000 ≤ 65536 ∧
    GetPrescaler 16000000 1000 + 1 = 16000000 / 1000 ∧
    16000000 / (GetPrescaler 16000000 1000 + 1) = 1000 :=
  have h := C14_prescaler_divides_clock 16000000 1000 (by decide) (by decide) (by decide)
    (by decide)
  ⟨by decide, by decide, by decide, by decide, h.2.2.1, h.2.2.2.2 (by decide)⟩

/-- C15 fails as stated: at 16 MHz the period programmed by
    `SetTimerClock(TIM7, 6000)` is 2666 input clocks and the one programmed by
    `SetTimerClock(TIM7, 3000)` is 5333, which is not twice 2666. -/
theorem C15_TIM7_period_not_halved :
    (SetTimerClock 16000000 configured.TIM7 6000).PSC + 1 = 2666 ∧
    (SetTimerClock 16000000 configured.TIM7 3000).PSC + 1 = 5333 ∧
    ¬ (2 * ((SetTimerClock 16000000 configured.TIM7 6000).PSC + 1) =
        (SetTimerClock 16000000 configured.TIM7 3000).PSC + 1) := by
  decide

/-- C15, amended: at 16 MHz the period programmed by `SetTimerClock(TIM6,
    2000)` is 8000 input clocks, exactly half of the 16000 programmed by
    `SetTimerClock(TIM6, 1000)`; the period programmed by `SetTimerClock(TIM7,
    6000)` is 2666, half of the 5333 programmed by `SetTimerClock(TIM7, 3000)`
    rounded down (`5333 = 2 * 2666 + 1`).  16000 and 5333 are the periods
    the setup functions leave in TIM6 and TIM7. -/
theorem C15_periods_halved_rounding_down (t6 t7 : TIM_TypeDef) :
    configured.TIM6.PSC + 1 = 16000 ∧ configured.TIM7.PSC + 1 = 5333 ∧
    (SetTimerClock 16000000 t6 1000).PSC + 1 = 16000 ∧
    (SetTimerClock 16000000 t6 2000).PSC + 1 = 8000 ∧
    2 * ((SetTimerClock 16000000 t6 2000).PSC + 1) = (SetTimerClock 16000000 t6 1000).PSC + 1 ∧
    (SetTimerClock 16000000 t7 3000).PSC + 1 = 5333 ∧
    (SetTimerClock 16000000 t7 6000).PSC + 1 = 2666 ∧
    (SetTimerClock 16000000 t7 6000).PSC + 1 = ((SetTimerClock 16000000 t7 3000).PSC + 1) / 2 ∧
    2 * ((SetTimerClock 16000000 t7 6000).PSC + 1) + 1 =
      (SetTimerClock 16000000 t7 3000).PSC + 1 := by
  simp only [SetTimerClock_eq]
  decide

end Basic4

namespace Basic4

theorem TIM6_DAC_IRQHandler_fifth (clk : Nat) (s : State) (h : s.times = 4) :
    TIM6_DAC_IRQHandler clk s =
      { s with TIM6 := { TIM_ClearITPendingBit s.TIM6 TIM_IT_Update with
                         PSC := GetPrescaler clk 2000 }
               GPIOD := GPIO_ToggleBits s.GPIOD GPIO_Pin_12
               times := 5 } := by
  simp [TIM6_DAC_IRQHandler, h, SetTimerClock_eq]

theorem TIM6_DAC_IRQHandler_tenth (clk : Nat) (s : State) (h : s.times = 9) :
    TIM6_DAC_IRQHandler clk s =
      { s with TIM6 := TIM_SelectOnePulseMode (TIM_ClearITPendingBit s.TIM6 TIM_IT_Update)
                         TIM_OPMode_Single
               GPIOD := GPIO_ToggleBits s.GPIOD GPIO_Pin_12
               times := 10 } := by
  simp [TIM6_DAC_IRQHandler, h]

theorem TIM6_DAC_IRQHandler_other (clk : Nat) (s : State) (n : Nat)
    (h : s.times = n - 1) (h1 : 1 ≤ n) (hn : n < 4294967296) (h5 : n ≠ 5) (h10 : n ≠ 10) :
    TIM6_DAC_IRQHandler clk s =
      { s with TIM6 := TIM_ClearITPendingBit s.TIM6 TIM_IT_Update
               GPIOD := GPIO_ToggleBits s.GPIOD GPIO_Pin_12
               times := n } := by
  have ht : (s.times + 1) % 4294967296 = n := by rw [h]; omega
  simp [TIM6_DAC_IRQHandler, ht, h5, h10]

theorem TIM6_DAC_IRQHandler_flags_and_led (clk : Nat) (s : State) :
    (TIM6_DAC_IRQHandler clk s).GPIOD.ODR = s.GPIOD.ODR ^^^ 0x1000 ∧
    (TIM6_DAC_IRQHandler clk s).TIM6.SR = s.TIM6.SR &&& 0xFFFE := by
  simp only [TIM6_DAC_IRQHandler]
  split_ifs <;> exact ⟨rfl, rfl⟩

/-- C16: counting the invocations of `TIM6_DAC_IRQHandler` from `times = 0`,
    the `n`-th invocation (`1 ≤ n < 2^32`, entered with the `times` that `n -
    1` invocations leave) always toggles LED pin 12 (bit 12 of ODR is
    inverted, the LED reads on exactly when it read off before), clears UIF
    and leaves `times = n`, with TIM4, TIM7 and the statics of the TIM7
    handler untouched.  For `n = 5` it also writes the prescaler for 2000 Hz
    into TIM6 and nothing else, for `n = 10` it also selects one pulse mode
    and nothing else, and for every other `n` it changes no further register
    of TIM6: CR1, PSC, ARR, DIER and the rest keep their values. -/
theorem C16_TIM6_reprograms_on_fifth_and_tenth (clk : Nat) (s₀ s : State) (n : Nat)
    (h0 : s₀.times = 0) (h1 : 1 ≤ n) (hn : n < 4294967296)
    (hs : s.times = ((TIM6_DAC_IRQHandler clk)^[n - 1] s₀).times) :
    (TIM6_DAC_IRQHandler clk s).times = n ∧
    (TIM6_DAC_IRQHandler clk s).GPIOD.ODR = s.GPIOD.ODR ^^^ 0x1000 ∧
    (TIM6_DAC_IRQHandler clk s).TIM4 = s.TIM4 ∧
    (TIM6_DAC_IRQHandler clk s).TIM7 = s.TIM7 ∧
    (TIM6_DAC_IRQHandler clk s).currentPin = s.currentPin ∧
    (TIM6_DAC_IRQHandler clk s).oldPin = s.oldPin ∧
    (n = 5 → (TIM6_DAC_IRQHandler clk s).TIM6 =
      { TIM_ClearITPendingBit s.TIM6 TIM_IT_Update with PSC := GetPrescaler clk 2000 }) ∧
    (n = 10 → (TIM6_DAC_IRQHandler clk s).TIM6 =
        { TIM_ClearITPendingBit s.TIM6 TIM_IT_Update with
          CR1 := (s.TIM6.CR1 &&& not16 TIM_CR1_OPM) ||| TIM_OPMode_Single } ∧
      (TIM6_DAC_IRQHandler clk s).TIM6.CR1 &&& TIM_CR1_OPM = TIM_CR1_OPM) ∧
    (n ≠ 5 → n ≠ 10 →
      (TIM6_DAC_IRQHandler clk s).TIM6 = TIM_ClearITPendingBit s.TIM6 TIM_IT_Update) ∧
    GPIO_ReadOutputDataBit (TIM6_DAC_IRQHandler clk s).GPIOD GPIO_Pin_12 =
      (!GPIO_ReadOutputDataBit s.GPIOD GPIO_Pin_12) ∧
    GPIO_ReadOutputDataBit (TIM6_DAC_IRQHandler clk s).GPIOD
        (GPIO_Pin_13 ||| GPIO_Pin_14 ||| GPIO_Pin_15) =
      GPIO_ReadOutputDataBit s.GPIOD (GPIO_Pin_13 ||| GPIO_Pin_14 ||| GPIO_Pin_15) ∧
    (TIM6_DAC_IRQHandler clk s).TIM6.SR = s.TIM6.SR &&& 0xFFFE ∧
    (TIM6_DAC_IRQHandler clk s).TIM6.SR &&& 1 = 0 ∧
    (n = 5 → (TIM6_DAC_IRQHandler clk s).TIM6.PSC = GetPrescaler clk 2000 ∧
      (TIM6_DAC_IRQHandler clk s).TIM6.CR1 = s.TIM6.CR1 ∧
      (TIM6_DAC_IRQHandler clk s).TIM6.ARR = s.TIM6.ARR ∧
      (TIM6_DAC_IRQHandler clk s).TIM6.DIER = s.TIM6.DIER) ∧
    (n = 10 → (TIM6_DAC_IRQHandler clk s).TIM6.CR1 = (s.TIM6.CR1 &&& 0xFFF7) ||| 0x0008 ∧
      (TIM6_DAC_IRQHandler clk s).TIM6.PSC = s.TIM6.PSC ∧
      (TIM6_DAC_IRQHandler clk s).TIM6.ARR = s.TIM6.ARR ∧
      (TIM6_DAC_IRQHandler clk s).TIM6.DIER = s.TIM6.DIER) ∧
    (n ≠ 5 → n ≠ 10 → (TIM6_DAC_IRQHandler clk s).TIM6.CR1 = s.TIM6.CR1 ∧
      (TIM6_DAC_IRQHandler clk s).TIM6.PSC = s.TIM6.PSC ∧
      (TIM6_DAC_IRQHandler clk s).TIM6.ARR = s.TIM6.ARR ∧
      (TIM6_DAC_IRQHandler clk s).TIM6.DIER = s.TIM6.DIER) := by
  have hprev : s.times = n - 1 := by
    rw [hs]
    rcases TIM6_DAC_IRQHandler_iterate_times clk s₀ (n - 1) with h | ⟨hk, h⟩
    · rw [h, h0]; omega
    · rw [h, h0]; omega
  obtain ⟨hodr, hsr⟩ := TIM6_DAC_IRQHandler_flags_and_led clk s
  have hled : GPIO_ReadOutputDataBit (TIM6_DAC_IRQHandler clk s).GPIOD GPIO_Pin_12 =
      (!GPIO_ReadOutputDataBit s.GPIOD GPIO_Pin_12) := by
    have h := GPIO_read_toggle_bit s.GPIOD 12
    have hg : (TIM6_DAC_IRQHandler clk s).GPIOD = GPIO_ToggleBits s.GPIOD (2 ^ 12) := by
      cases hG : (TIM6_DAC_IRQHandler clk s).GPIOD
      rw [hG] at hodr
      simp only [GPIO_ToggleBits] at hodr ⊢
      rw [hodr]
      rfl
    rw [hg]
    exact h
  have hothers : GPIO_ReadOutputDataBit (TIM6_DAC_IRQHandler clk s).GPIOD
        (GPIO_Pin_13 ||| GPIO_Pin_14 ||| GPIO_Pin_15) =
      GPIO_ReadOutputDataBit s.GPIOD (GPIO_Pin_13 ||| GPIO_Pin_14 ||| GPIO_Pin_15) := by
    unfold GPIO_ReadOutputDataBit
    have hm : GPIO_Pin_13 ||| GPIO_Pin_14 ||| GPIO_Pin_15 = 0xE000 := by decide
    have hz : (0x1000 : Nat) &&& 0xE000 = 0 := by decide
    rw [hm, hodr, Nat.and_xor_distrib_right, hz, Nat.xor_zero]
  have hflag : (TIM6_DAC_IRQHandler clk s).TIM6.SR &&& 1 = 0 := by
    have hz : (0xFFFE : Nat) &&& 1 = 0 := by decide
    rw [hsr, Nat.and_assoc, hz, Nat.and_zero]
  by_cases h5 : n = 5
  · subst h5
    refine ⟨?_, hodr, ?_, ?_, ?_, ?_, ?_, fun h => absurd h (by decide), fun h => absurd rfl h,
      hled, hothers, hsr, hflag, ?_, fun h => absurd h (by decide), fun h => absurd rfl h⟩
    all_goals rw [TIM6_DAC_IRQHandler_fifth clk s hprev]
    · intro _; rfl
    · intro _; exact ⟨rfl, rfl, rfl, rfl⟩
  · by_cases h10 : n = 10
    · subst h10
      refine ⟨?_, hodr, ?_, ?_, ?_, ?_, fun h => absurd h (by decide), ?_,
        fun _ h => absurd rfl h, hled, hothers, hsr, hflag, fun h => absurd h (by decide), ?_,
        fun _ h => absurd rfl h⟩
      all_goals rw [TIM6_DAC_IRQHandler_tenth clk s hprev]
      · intro _
        refine ⟨rfl, ?_⟩
        show ((s.TIM6.CR1 &&& not16 TIM_CR1_OPM) ||| TIM_OPMode_Single) &&& TIM_CR1_OPM =
          TIM_CR1_OPM
        exact or_and_self_mask _ _
      · intro _; exact ⟨rfl, rfl, rfl, rfl⟩
    · refine ⟨?_, hodr, ?_, ?_, ?_, ?_, fun h => absurd h h5, fun h => absurd h h10, ?_,
        hled, hothers, hsr, hflag, fun h => absurd h h5, fun h => absurd h h10, ?_⟩
      all_goals rw [TIM6_DAC_IRQHandler_other clk s n hprev h1 hn h5 h10]
      · intro _ _; rfl
      · intro _ _; exact ⟨rfl, rfl, rfl, rfl⟩

/-- Witness for C16: the fifth invocation in the configured system at 16 MHz
    writes the prescaler 7999 over 15999, lights LED 12 (bit 12 of ODR goes
    from 0 to 1) and clears UIF. -/
theorem C16_TIM6_reprograms_on_fifth_and_tenth_witness :
    configured.times = 0 ∧ 1 ≤ 5 ∧ 5 < 4294967296 ∧
    ((TIM6_DAC_IRQHandler 16000000)^[4] configured).times =
      ((TIM6_DAC_IRQHandler 16000000)^[5 - 1] configured).times ∧
    ((TIM6_DAC_IRQHandler 16000000)^[4] configured).GPIOD.ODR = 0 ∧
    ((TIM6_DAC_IRQHandler 16000000)^[4] configured).TIM6.PSC = 15999 ∧
    (TIM6_DAC_IRQHandler 16000000 ((TIM6_DAC_IRQHandler 16000000)^[4] configured)).times = 5 ∧
    (TIM6_DAC_IRQHandler 16000000 ((TIM6_DAC_IRQHandler 16000000)^[4] configured)).TIM6.PSC =
      7999 ∧
    (TIM6_DAC_IRQHandler 16000000 ((TIM6_DAC_IRQHandler 16000000)^[4] configured)).GPIOD.ODR =
      0x1000 ∧
    GPIO_ReadOutputDataBit
      (TIM6_DAC_IRQHandler 16000000 ((TIM6_DAC_IRQHandler 16000000)^[4] configured)).GPIOD
      GPIO_Pin_12 = true :=
  have h := C16_TIM6_reprograms_on_fifth_and_tenth 16000000 configured
    ((TIM6_DAC_IRQHandler 16000000)^[4] configured) 5 (by decide) (by decide) (by decide) rfl
  ⟨by decide, by decide, by decide, rfl, by decide, by decide, h.1,
    (congrArg TIM_TypeDef.PSC (h.2.2.2.2.2.2.1 rfl)).trans (by decide),
    h.2.1.trans (by decide),
    h.2.2.2.2.2.2.2.2.2.1.trans (by decide)⟩

theorem SetupTimer6_TIM6_from_reset (clk : Nat) :
    (SetupTimer6 clk resetState).TIM6 =
      { CR1 := 1, SMCR := 0, DIER := 1, SR := 1, CNT := 0, PSC := GetPrescaler clk 1000,
        ARR := 999, CCR1 := 0, CCR2 := 0, ARR_shadow := 999 } := by
  simp [SetupTimer6, TIM_Cmd, TIM_ITConfig, TIM_GenerateEvent, TIM_GenerateUpdate,
    updateEvent, SetTimerClock_eq, TIM_SetAutoreload, resetState, TIM_EventSource_Update,
    TIM_CR1_ARPE, TIM_CR1_UDIS, TIM_CR1_URS, TIM_CR1_OPM, TIM_CR1_CEN, TIM_IT_Update]

/-- C17: the code does not do what the claim and its own comment (basic4.c,
    lines 270-272) say.  `SetupTimer6` passes `TIM4` to `TIM_ARRPreloadConfig`:
    for every state it sets ARPE in TIM4's CR1 and leaves the ARPE bit of TIM6
    as it was, clear from reset, so that a later write of TIM6's ARR is
    effective immediately. -/
theorem C17_SetupTimer6_sets_preload_of_TIM4 (clk : Nat) (s : State) (v : Nat) :
    (SetupTimer6 clk s).TIM4.CR1 &&& TIM_CR1_ARPE = TIM_CR1_ARPE ∧
    (SetupTimer6 clk s).TIM6.CR1 &&& TIM_CR1_ARPE = s.TIM6.CR1 &&& TIM_CR1_ARPE ∧
    (SetupTimer6 clk resetState).TIM6.CR1 &&& TIM_CR1_ARPE = 0 ∧
    (SetupTimer6 clk resetState).TIM6.ARR_shadow = 999 ∧
    (TIM_SetAutoreload (SetupTimer6 clk resetState).TIM6 v).ARR_shadow = v := by
  have hkeep : (SetupTimer6 clk s).TIM6.CR1 &&& TIM_CR1_ARPE = s.TIM6.CR1 &&& TIM_CR1_ARPE := by
    have hc : TIM_CR1_CEN &&& TIM_CR1_ARPE = 0 := by decide
    have hn : not16 TIM_CR1_CEN &&& TIM_CR1_ARPE = TIM_CR1_ARPE := by decide
    simp only [SetupTimer6, TIM_Cmd, TIM_ITConfig, TIM_GenerateEvent, TIM_GenerateUpdate,
      updateEvent, SetTimerClock_eq, TIM_SetAutoreload]
    split_ifs <;> simp [Nat.and_distrib_right, Nat.and_assoc, hc, hn]
  have hset : (SetupTimer6 clk s).TIM4.CR1 &&& TIM_CR1_ARPE = TIM_CR1_ARPE := by
    show (s.TIM4.CR1 ||| TIM_CR1_ARPE) &&& TIM_CR1_ARPE = TIM_CR1_ARPE
    exact or_and_self_mask _ _
  refine ⟨hset, hkeep, ?_, ?_, ?_⟩
  · rw [SetupTimer6_TIM6_from_reset]; show 1 &&& TIM_CR1_ARPE = 0; decide
  · rw [SetupTimer6_TIM6_from_reset]
  · rw [SetupTimer6_TIM6_from_reset]
    simp [TIM_SetAutoreload, TIM_CR1_ARPE]

end Basic4

theorem read_pin_of_mask (g : GPIO_TypeDef) (m k v : Nat) (hm : m &&& 2 ^ k = 2 ^ k)
    (h : g.ODR &&& m = v) :
    GPIO_ReadOutputDataBit g (2 ^ k) = (v &&& 2 ^ k != 0) := by
  unfold GPIO_ReadOutputDataBit
  rw [masked_bit g.ODR m k hm, h]

namespace Basic4

theorem TIM7_IRQHandler_leds (clk : Nat) (s : State) :
    (TIM7_IRQHandler clk s).GPIOD =
      GPIO_ResetBits (GPIO_SetBits s.GPIOD (pins.getD s.currentPin 0)) (pins.getD s.oldPin 0) ∧
    (TIM7_IRQHandler clk s).oldPin = s.currentPin ∧
    (TIM7_IRQHandler clk s).currentPin = (s.currentPin + 1) % 4294967296 % 3 ∧
    (TIM7_IRQHandler clk s).times = s.times := by
  simp only [TIM7_IRQHandler]
  split_ifs <;> exact ⟨rfl, rfl, rfl, rfl⟩

theorem TIM6_DAC_IRQHandler_leds (clk : Nat) (s : State) :
    (TIM6_DAC_IRQHandler clk s).GPIOD = GPIO_ToggleBits s.GPIOD GPIO_Pin_12 ∧
    (TIM6_DAC_IRQHandler clk s).oldPin = s.oldPin ∧
    (TIM6_DAC_IRQHandler clk s).currentPin = s.currentPin := by
  simp only [TIM6_DAC_IRQHandler]
  split_ifs <;> exact ⟨rfl, rfl, rfl⟩

theorem TIM7_IRQHandler_step (clk : Nat) (s : State) (n : Nat)
    (hc : s.currentPin = n % 3) (ho : s.oldPin = (n + 2) % 3)
    (hled : s.GPIOD.ODR &&& 0xE000 = if n = 0 then 0 else 2 ^ (13 + (n - 1) % 3)) :
    (TIM7_IRQHandler clk s).currentPin = (n + 1) % 3 ∧
    (TIM7_IRQHandler clk s).oldPin = (n + 1 + 2) % 3 ∧
    (TIM7_IRQHandler clk s).GPIOD.ODR &&& 0xE000 = 2 ^ (13 + n % 3) := by
  obtain ⟨hg, hold, hcur, _⟩ := TIM7_IRQHandler_leds clk s
  refine ⟨by rw [hcur, hc]; omega, by rw [hold, hc]; omega, ?_⟩
  rw [hg, hc, ho]
  show ((s.GPIOD.ODR ||| pins.getD (n % 3) 0) &&& not16 (pins.getD ((n + 2) % 3) 0)) &&& 0xE000
    = 2 ^ (13 + n % 3)
  rw [set_reset_masked, hled]
  by_cases h0 : n = 0
  · subst h0; decide
  · have hprev : (n - 1) % 3 = (n + 2) % 3 := by omega
    rw [if_neg h0, hprev]
    have hr : n % 3 = 0 ∨ n % 3 = 1 ∨ n % 3 = 2 := by omega
    rcases hr with h | h | h
    · have h2 : (n + 2) % 3 = 2 := by omega
      rw [h, h2]; decide
    · have h2 : (n + 2) % 3 = 0 := by omega
      rw [h, h2]; decide
    · have h2 : (n + 2) % 3 = 1 := by omega
      rw [h, h2]; decide

theorem TIM6_DAC_IRQHandler_keeps_pins (clk : Nat) (s : State) :
    (TIM6_DAC_IRQHandler clk s).GPIOD.ODR &&& 0xE000 = s.GPIOD.ODR &&& 0xE000 := by
  rw [(TIM6_DAC_IRQHandler_leds clk s).1]
  show (s.GPIOD.ODR ^^^ GPIO_Pin_12) &&& 0xE000 = s.GPIOD.ODR &&& 0xE000
  have h : GPIO_Pin_12 &&& 0xE000 = 0 := by decide
  rw [Nat.and_xor_distrib_right, h, Nat.xor_zero]

theorem runIrqs_invariant (clk : Nat) (irqs : List Irq) :
    ∀ (s : State) (n : Nat), s.currentPin = n % 3 → s.oldPin = (n + 2) % 3 →
      (s.GPIOD.ODR &&& 0xE000 = if n = 0 then 0 else 2 ^ (13 + (n - 1) % 3)) →
      (runIrqs clk s irqs).GPIOD.ODR &&& 0xE000 =
        if n + irqs.count Irq.TIM7 = 0 then 0
        else 2 ^ (13 + (n + irqs.count Irq.TIM7 - 1) % 3) := by
  induction irqs with
  | nil => intro s n _ _ hled; simpa [runIrqs] using hled
  | cons irq rest ih =>
    intro s n hc ho hled
    cases irq with
    | TIM6 =>
      obtain ⟨_, hold, hcur⟩ := TIM6_DAC_IRQHandler_leds clk s
      have := ih (TIM6_DAC_IRQHandler clk s) n (by rw [hcur, hc]) (by rw [hold, ho])
        (by rw [TIM6_DAC_IRQHandler_keeps_pins, hled])
      simpa [runIrqs, dispatch] using this
    | TIM7 =>
      obtain ⟨h1, h2, h3⟩ := TIM7_IRQHandler_step clk s n hc ho hled
      have := ih (TIM7_IRQHandler clk s) (n + 1) h1 h2 (by rw [h3]; simp)
      have hcount : n + (List.count Irq.TIM7 (Irq.TIM7 :: rest)) = n + 1 + List.count Irq.TIM7 rest := by
        simp; omega
      rw [hcount]
      simpa [runIrqs, dispatch] using this

theorem litPins_of_mask_13_15 (g : GPIO_TypeDef) (r : Nat) (hr : r < 3)
    (h : g.ODR &&& 0xE000 = 2 ^ (13 + r)) : litPins g [13, 14, 15] = [13 + r] := by
  have h13 := read_pin_of_mask g 0xE000 13 _ (by decide) h
  have h14 := read_pin_of_mask g 0xE000 14 _ (by decide) h
  have h15 := read_pin_of_mask g 0xE000 15 _ (by decide) h
  have hcases : r = 0 ∨ r = 1 ∨ r = 2 := by omega
  rcases hcases with rfl | rfl | rfl
  · have a : GPIO_ReadOutputDataBit g (2 ^ 13) = true := h13.trans (by decide)
    have b : GPIO_ReadOutputDataBit g (2 ^ 14) = false := h14.trans (by decide)
    have c : GPIO_ReadOutputDataBit g (2 ^ 15) = false := h15.trans (by decide)
    simp only [litPins, List.filter_cons, List.filter_nil, a, b, c]
    simp
  · have a : GPIO_ReadOutputDataBit g (2 ^ 13) = false := h13.trans (by decide)
    have b : GPIO_ReadOutputDataBit g (2 ^ 14) = true := h14.trans (by decide)
    have c : GPIO_ReadOutputDataBit g (2 ^ 15) = false := h15.trans (by decide)
    simp only [litPins, List.filter_cons, List.filter_nil, a, b, c]
    simp
  · have a : GPIO_ReadOutputDataBit g (2 ^ 13) = false := h13.trans (by decide)
    have b : GPIO_ReadOutputDataBit g (2 ^ 14) = false := h14.trans (by decide)
    have c : GPIO_ReadOutputDataBit g (2 ^ 15) = true := h15.trans (by decide)
    simp only [litPins, List.filter_cons, List.filter_nil, a, b, c]
    simp

theorem runIrqs_replicate_TIM7 (clk : Nat) (n : Nat) :
    ∀ s : State, runIrqs clk s (List.replicate n Irq.TIM7) = (TIM7_IRQHandler clk)^[n] s := by
  induction n with
  | zero => intro s; rfl
  | succ n ih =>
    intro s
    rw [List.replicate_succ, Function.iterate_succ_apply, ← ih (TIM7_IRQHandler clk s)]
    rfl

/-- C20: starting with pins 13..15 off, `currentPin = 0` and `oldPin = 2`,
    after every sequence of timer interrupts that contains `n ≥ 1` invocations
    of `TIM7_IRQHandler` (invocations of `TIM6_DAC_IRQHandler` may come in
    between) exactly one of the pins 13..15 is lit, namely pin `13 + ((n - 1)
    mod 3)`. -/
theorem C20_TIM7_steps_one_lit_led (clk : Nat) (s : State) (irqs : List Irq)
    (hoff : GPIO_ReadOutputDataBit s.GPIOD (GPIO_Pin_13 ||| GPIO_Pin_14 ||| GPIO_Pin_15) = false)
    (hc : s.currentPin = 0) (ho : s.oldPin = 2) (hn : 1 ≤ irqs.count Irq.TIM7) :
    litPins (runIrqs clk s irqs).GPIOD [13, 14, 15] = [13 + (irqs.count Irq.TIM7 - 1) % 3] ∧
    litPins ((TIM7_IRQHandler clk)^[irqs.count Irq.TIM7] s).GPIOD [13, 14, 15] =
      [13 + (irqs.count Irq.TIM7 - 1) % 3] := by
  have hmask : s.GPIOD.ODR &&& 0xE000 = 0 := by
    have h : GPIO_Pin_13 ||| GPIO_Pin_14 ||| GPIO_Pin_15 = 0xE000 := by decide
    rw [h] at hoff
    simpa [GPIO_ReadOutputDataBit] using hoff
  have key : ∀ l : List Irq, 1 ≤ l.count Irq.TIM7 →
      litPins (runIrqs clk s l).GPIOD [13, 14, 15] = [13 + (l.count Irq.TIM7 - 1) % 3] := by
    intro l hl
    have h := runIrqs_invariant clk l s 0 (by rw [hc]) (by rw [ho]) (by rw [hmask]; rfl)
    rw [Nat.zero_add, if_neg (by omega)] at h
    exact litPins_of_mask_13_15 _ _ (Nat.mod_lt _ (by decide)) h
  refine ⟨key irqs hn, ?_⟩
  have hrep := key (List.replicate (irqs.count Irq.TIM7) Irq.TIM7)
    (by rw [List.count_replicate_self]; exact hn)
  rw [List.count_replicate_self, runIrqs_replicate_TIM7] at hrep
  exact hrep

/-- Witness for C20: in the configured system the interrupts TIM7, TIM6, TIM7,
    TIM7, TIM7 (four of TIM7) leave pin 13 lit among 13..15. -/
theorem C20_TIM7_steps_one_lit_led_witness :
    GPIO_ReadOutputDataBit configured.GPIOD (GPIO_Pin_13 ||| GPIO_Pin_14 ||| GPIO_Pin_15) = false ∧
    configured.currentPin = 0 ∧ configured.oldPin = 2 ∧
    1 ≤ [Irq.TIM7, Irq.TIM6, Irq.TIM7, Irq.TIM7, Irq.TIM7].count Irq.TIM7 ∧
    litPins (runIrqs 16000000 configured
      [Irq.TIM7, Irq.TIM6, Irq.TIM7, Irq.TIM7, Irq.TIM7]).GPIOD [13, 14, 15] = [13] :=
  ⟨by decide, by decide, by decide, by decide,
    (C20_TIM7_steps_one_lit_led 16000000 configured
      [Irq.TIM7, Irq.TIM6, Irq.TIM7, Irq.TIM7, Irq.TIM7] (by decide) (by decide) (by decide)
      (by decide)).1.trans (by decide)⟩

end Basic4

namespace Basic6

/-! ## The duty-cycle ramp of basic6.c -/

theorem TIM4_IRQHandler_down (s : State) (c : Nat) (hc : s.TIM4.CCR1 = c) (hd : s.dir = -1)
    (hlo : 5 < c) (hhi : c ≤ 1000) :
    (TIM4_IRQHandler s).TIM4.CCR1 = c - 5 ∧ (TIM4_IRQHandler s).dir = -1 := by
  have hv : int_of_u32 ((c % 4294967296 + u32_of_int (-1 * 5)) % 4294967296) = (c : Int) - 5 := by
    have hu : u32_of_int (-1 * 5) = 4294967291 := by decide
    rw [hu]
    unfold int_of_u32
    split_ifs <;> omega
  simp only [TIM4_IRQHandler, TIM_GetCapture1, TIM_ClearITPendingBit, hc, hd, hv]
  rw [if_neg (by omega), if_neg (by omega)]
  refine ⟨?_, rfl⟩
  show u32_of_int ((c : Int) - 5) = c - 5
  unfold u32_of_int
  omega

theorem TIM4_IRQHandler_bottom (s : State) (c : Nat) (hc : s.TIM4.CCR1 = c) (hd : s.dir = -1)
    (hlo : c ≤ 5) :
    (TIM4_IRQHandler s).TIM4.CCR1 = 0 ∧ (TIM4_IRQHandler s).dir = 1 := by
  have hv : int_of_u32 ((c % 4294967296 + u32_of_int (-1 * 5)) % 4294967296) = (c : Int) - 5 := by
    have hu : u32_of_int (-1 * 5) = 4294967291 := by decide
    rw [hu]
    unfold int_of_u32
    split_ifs <;> omega
  simp only [TIM4_IRQHandler, TIM_GetCapture1, TIM_ClearITPendingBit, hc, hd, hv]
  rw [if_neg (by omega), if_pos (by omega)]
  exact ⟨rfl, rfl⟩

theorem TIM4_IRQHandler_up (s : State) (c : Nat) (hc : s.TIM4.CCR1 = c) (hd : s.dir = 1)
    (hhi : c + 5 < 1000) :
    (TIM4_IRQHandler s).TIM4.CCR1 = c + 5 ∧ (TIM4_IRQHandler s).dir = 1 := by
  have hv : int_of_u32 ((c % 4294967296 + u32_of_int (1 * 5)) % 4294967296) = (c : Int) + 5 := by
    have hu : u32_of_int (1 * 5) = 5 := by decide
    rw [hu]
    unfold int_of_u32
    split_ifs <;> omega
  simp only [TIM4_IRQHandler, TIM_GetCapture1, TIM_ClearITPendingBit, hc, hd, hv]
  rw [if_neg (by omega), if_neg (by omega)]
  refine ⟨?_, rfl⟩
  show u32_of_int ((c : Int) + 5) = c + 5
  unfold u32_of_int
  omega

theorem TIM4_IRQHandler_top (s : State) (c : Nat) (hc : s.TIM4.CCR1 = c) (hd : s.dir = 1)
    (hlo : 1000 ≤ c + 5) (hhi : c ≤ 1000) :
    (TIM4_IRQHandler s).TIM4.CCR1 = 1000 ∧ (TIM4_IRQHandler s).dir = -1 := by
  have hv : int_of_u32 ((c % 4294967296 + u32_of_int (1 * 5)) % 4294967296) = (c : Int) + 5 := by
    have hu : u32_of_int (1 * 5) = 5 := by decide
    rw [hu]
    unfold int_of_u32
    split_ifs <;> omega
  simp only [TIM4_IRQHandler, TIM_GetCapture1, TIM_ClearITPendingBit, hc, hd, hv]
  rw [if_pos (by omega)]
  exact ⟨rfl, rfl⟩

theorem ramp_closed_form (s : State) (hc : s.TIM4.CCR1 = 1000) (hd : s.dir = -1) (k : Nat) :
    (TIM4_IRQHandler^[k] s).TIM4.CCR1 =
      (if k % 400 < 200 then 1000 - 5 * (k % 400) else 5 * (k % 400 - 200)) ∧
    (TIM4_IRQHandler^[k] s).dir = (if k % 400 < 200 then -1 else 1) := by
  induction k with
  | zero => exact ⟨hc, hd⟩
  | succ k ih =>
    obtain ⟨ihc, ihd⟩ := ih
    rw [Function.iterate_succ_apply']
    by_cases hlt : k % 400 < 200
    · rw [if_pos hlt] at ihc ihd
      by_cases hlast : k % 400 = 199
      · obtain ⟨a, b⟩ := TIM4_IRQHandler_bottom _ _ ihc ihd (by omega)
        rw [a, b, if_neg (by omega), if_neg (by omega)]
        exact ⟨by omega, rfl⟩
      · obtain ⟨a, b⟩ := TIM4_IRQHandler_down _ _ ihc ihd (by omega) (by omega)
        rw [a, b, if_pos (by omega), if_pos (by omega)]
        exact ⟨by omega, rfl⟩
    · rw [if_neg hlt] at ihc ihd
      by_cases hlast : k % 400 = 399
      · obtain ⟨a, b⟩ := TIM4_IRQHandler_top _ _ ihc ihd (by omega) (by omega)
        rw [a, b, if_pos (by omega), if_pos (by omega)]
        exact ⟨by omega, rfl⟩
      · obtain ⟨a, b⟩ := TIM4_IRQHandler_up _ _ ihc ihd (by omega)
        rw [a, b, if_neg (by omega), if_neg (by omega)]
        exact ⟨by omega, rfl⟩

end Basic6

namespace Basic6

/-- C18: starting with `CCR1 = 1000` and `dir = -1`, after `k` invocations of
    `TIM4_IRQHandler` CCR1 is `1000 - 5 (k mod 400)` while `k mod 400 < 200`
    and `5 (k mod 400 - 200)` after that, with `dir = -1` on the way down and
    `+1` on the way up.  So every interrupt steps CCR1 by exactly 5, CCR1
    reaches 0 first after 200 interrupts (with `dir = +1`), the state `(1000,
    -1)` returns first after 400 interrupts, and `(CCR1, dir)` has period
    400. -/
theorem C18_duty_cycle_ramp_period_400 (s : State) (hc : s.TIM4.CCR1 = 1000)
    (hd : s.dir = -1) :
    (∀ k, (TIM4_IRQHandler^[k] s).TIM4.CCR1 =
        (if k % 400 < 200 then 1000 - 5 * (k % 400) else 5 * (k % 400 - 200)) ∧
      (TIM4_IRQHandler^[k] s).dir = (if k % 400 < 200 then -1 else 1)) ∧
    (∀ k, (TIM4_IRQHandler^[k + 1] s).TIM4.CCR1 + 5 = (TIM4_IRQHandler^[k] s).TIM4.CCR1 ∨
      (TIM4_IRQHandler^[k + 1] s).TIM4.CCR1 = (TIM4_IRQHandler^[k] s).TIM4.CCR1 + 5) ∧
    (∀ k, k < 200 → 0 < (TIM4_IRQHandler^[k] s).TIM4.CCR1 ∧ (TIM4_IRQHandler^[k] s).dir = -1) ∧
    ((TIM4_IRQHandler^[200] s).TIM4.CCR1 = 0 ∧ (TIM4_IRQHandler^[200] s).dir = 1) ∧
    (∀ k, 0 < k → k < 400 →
      ¬ ((TIM4_IRQHandler^[k] s).TIM4.CCR1 = 1000 ∧ (TIM4_IRQHandler^[k] s).dir = -1)) ∧
    ((TIM4_IRQHandler^[400] s).TIM4.CCR1 = 1000 ∧ (TIM4_IRQHandler^[400] s).dir = -1) ∧
    (∀ k, (TIM4_IRQHandler^[k + 400] s).TIM4.CCR1 = (TIM4_IRQHandler^[k] s).TIM4.CCR1 ∧
      (TIM4_IRQHandler^[k + 400] s).dir = (TIM4_IRQHandler^[k] s).dir) := by
  have hform := ramp_closed_form s hc hd
  refine ⟨hform, ?_, ?_, ?_, ?_, ?_, ?_⟩
  · intro k
    rw [(hform (k + 1)).1, (hform k).1]
    split_ifs <;> omega
  · intro k hk
    rw [(hform k).1, (hform k).2, if_pos (by omega), if_pos (by omega)]
    exact ⟨by omega, rfl⟩
  · rw [(hform 200).1, (hform 200).2]
    exact ⟨by decide, by decide⟩
  · intro k h0 h400 hboth
    rw [(hform k).1, (hform k).2] at hboth
    by_cases hlt : k % 400 < 200
    · rw [if_pos hlt] at hboth
      omega
    · rw [if_neg hlt, if_neg hlt] at hboth
      exact absurd hboth.2 (by decide)
  · rw [(hform 400).1, (hform 400).2]
    exact ⟨by decide, by decide⟩
  · intro k
    rw [(hform (k + 400)).1, (hform (k + 400)).2, (hform k).1, (hform k).2,
      Nat.add_mod_right]
    exact ⟨rfl, rfl⟩

/-- Witness for C18: in the configured system CCR1 is 0 with `dir = +1` after
    200 interrupts and 1000 with `dir = -1` after 400. -/
theorem C18_duty_cycle_ramp_period_400_witness :
    configured.TIM4.CCR1 = 1000 ∧ configured.dir = -1 ∧
    ((TIM4_IRQHandler^[200] configured).TIM4.CCR1 = 0 ∧
      (TIM4_IRQHandler^[200] configured).dir = 1) ∧
    ((TIM4_IRQHandler^[400] configured).TIM4.CCR1 = 1000 ∧
      (TIM4_IRQHandler^[400] configured).dir = -1) :=
  have h := C18_duty_cycle_ramp_period_400 configured rfl rfl
  ⟨rfl, rfl, h.2.2.2.1, h.2.2.2.2.2.1⟩

end Basic6

namespace Basic3

/-! ## The LED walk of basic3.c -/

theorem EXTI0_IRQHandler_eq (s : State) :
    (EXTI0_IRQHandler s).GPIOD =
      GPIO_ToggleBits s.GPIOD
        (pins.getD s.currentPin 0 ||| pins.getD ((s.currentPin + 1) % 4) 0) ∧
    (EXTI0_IRQHandler s).currentPin = (s.currentPin + 1) % 4 % 65536 :=
  ⟨rfl, rfl⟩

theorem EXTI0_IRQHandler_step (s : State) (k : Nat)
    (hc : s.currentPin = k % 4) (hled : s.GPIOD.ODR &&& 0xF000 = 2 ^ (12 + k % 4)) :
    (EXTI0_IRQHandler s).currentPin = (k + 1) % 4 ∧
    (EXTI0_IRQHandler s).GPIOD.ODR &&& 0xF000 = 2 ^ (12 + (k + 1) % 4) := by
  obtain ⟨hg, hcur⟩ := EXTI0_IRQHandler_eq s
  refine ⟨by rw [hcur, hc]; omega, ?_⟩
  rw [hg, hc]
  show (s.GPIOD.ODR ^^^ (pins.getD (k % 4) 0 ||| pins.getD ((k % 4 + 1) % 4) 0)) &&& 0xF000
    = 2 ^ (12 + (k + 1) % 4)
  rw [Nat.and_xor_distrib_right, hled]
  have hr : k % 4 = 0 ∨ k % 4 = 1 ∨ k % 4 = 2 ∨ k % 4 = 3 := by omega
  rcases hr with h | h | h | h
  · have h1 : (k + 1) % 4 = 1 := by omega
    rw [h, h1]; decide
  · have h1 : (k + 1) % 4 = 2 := by omega
    rw [h, h1]; decide
  · have h1 : (k + 1) % 4 = 3 := by omega
    rw [h, h1]; decide
  · have h1 : (k + 1) % 4 = 0 := by omega
    rw [h, h1]; decide

theorem EXTI0_IRQHandler_iterate (s : State) (hc : s.currentPin = 0)
    (hled : s.GPIOD.ODR &&& 0xF000 = 2 ^ 12) (k : Nat) :
    (EXTI0_IRQHandler^[k] s).currentPin = k % 4 ∧
    (EXTI0_IRQHandler^[k] s).GPIOD.ODR &&& 0xF000 = 2 ^ (12 + k % 4) := by
  induction k with
  | zero => exact ⟨hc, hled⟩
  | succ k ih =>
    rw [Function.iterate_succ_apply']
    exact EXTI0_IRQHandler_step _ k ih.1 ih.2

theorem litPins_of_mask_12_15 (g : GPIO_TypeDef) (r : Nat) (hr : r < 4)
    (h : g.ODR &&& 0xF000 = 2 ^ (12 + r)) : litPins g [12, 13, 14, 15] = [12 + r] := by
  have h12 := read_pin_of_mask g 0xF000 12 _ (by decide) h
  have h13 := read_pin_of_mask g 0xF000 13 _ (by decide) h
  have h14 := read_pin_of_mask g 0xF000 14 _ (by decide) h
  have h15 := read_pin_of_mask g 0xF000 15 _ (by decide) h
  have hcases : r = 0 ∨ r = 1 ∨ r = 2 ∨ r = 3 := by omega
  rcases hcases with rfl | rfl | rfl | rfl
  · have a : GPIO_ReadOutputDataBit g (2 ^ 12) = true := h12.trans (by decide)
    have b : GPIO_ReadOutputDataBit g (2 ^ 13) = false := h13.trans (by decide)
    have c : GPIO_ReadOutputDataBit g (2 ^ 14) = false := h14.trans (by decide)
    have d : GPIO_ReadOutputDataBit g (2 ^ 15) = false := h15.trans (by decide)
    simp only [litPins, List.filter_cons, List.filter_nil, a, b, c, d]
    simp
  · have a : GPIO_ReadOutputDataBit g (2 ^ 12) = false := h12.trans (by decide)
    have b : GPIO_ReadOutputDataBit g (2 ^ 13) = true := h13.trans (by decide)
    have c : GPIO_ReadOutputDataBit g (2 ^ 14) = false := h14.trans (by decide)
    have d : GPIO_ReadOutputDataBit g (2 ^ 15) = false := h15.trans (by decide)
    simp only [litPins, List.filter_cons, List.filter_nil, a, b, c, d]
    simp
  · have a : GPIO_ReadOutputDataBit g (2 ^ 12) = false := h12.trans (by decide)
    have b : GPIO_ReadOutputDataBit g (2 ^ 13) = false := h13.trans (by decide)
    have c : GPIO_ReadOutputDataBit g (2 ^ 14) = true := h14.trans (by decide)
    have d : GPIO_ReadOutputDataBit g (2 ^ 15) = false := h15.trans (by decide)
    simp only [litPins, List.filter_cons, List.filter_nil, a, b, c, d]
    simp
  · have a : GPIO_ReadOutputDataBit g (2 ^ 12) = false := h12.trans (by decide)
    have b : GPIO_ReadOutputDataBit g (2 ^ 13) = false := h13.trans (by decide)
    have c : GPIO_ReadOutputDataBit g (2 ^ 14) = false := h14.trans (by decide)
    have d : GPIO_ReadOutputDataBit g (2 ^ 15) = true := h15.trans (by decide)
    simp only [litPins, List.filter_cons, List.filter_nil, a, b, c, d]
    simp

/-- C19: starting with only LED pin 12 lit among the pins 12..15 and
    `currentPin = 0` (the state after `SetupLEDs`), after `k` invocations of
    `EXTI0_IRQHandler` exactly one of the pins 12..15 is lit, namely pin `12 +
    (k mod 4)`, and `currentPin = k mod 4`, so that both indices used by the
    next invocation are inside `pins`. -/
theorem C19_button_steps_one_lit_led (s : State) (k : Nat)
    (hled : s.GPIOD.ODR &&& (GPIO_Pin_12 ||| GPIO_Pin_13 ||| GPIO_Pin_14 ||| GPIO_Pin_15) =
      GPIO_Pin_12)
    (hc : s.currentPin = 0) :
    litPins (EXTI0_IRQHandler^[k] s).GPIOD [12, 13, 14, 15] = [12 + k % 4] ∧
    (EXTI0_IRQHandler^[k] s).currentPin = k % 4 ∧
    (EXTI0_IRQHandler^[k] s).currentPin < pins.length ∧
    ((EXTI0_IRQHandler^[k] s).currentPin + 1) % 4 < pins.length := by
  have hmask : s.GPIOD.ODR &&& 0xF000 = 2 ^ 12 := hled
  obtain ⟨h1, h2⟩ := EXTI0_IRQHandler_iterate s hc hmask k
  have hlt : k % 4 < 4 := Nat.mod_lt _ (by decide)
  refine ⟨litPins_of_mask_12_15 _ _ hlt h2, h1, ?_, ?_⟩
  · rw [h1]; exact hlt
  · exact Nat.mod_lt _ (by decide)

/-- Witness for C19: six button interrupts after `SetupLEDs` from reset leave
    pin 14 lit and `currentPin = 2`. -/
theorem C19_button_steps_one_lit_led_witness :
    (SetupLEDs resetState).GPIOD.ODR &&&
      (GPIO_Pin_12 ||| GPIO_Pin_13 ||| GPIO_Pin_14 ||| GPIO_Pin_15) = GPIO_Pin_12 ∧
    (SetupLEDs resetState).currentPin = 0 ∧
    litPins (EXTI0_IRQHandler^[6] (SetupLEDs resetState)).GPIOD [12, 13, 14, 15] = [14] ∧
    (EXTI0_IRQHandler^[6] (SetupLEDs resetState)).currentPin = 2 :=
  have h := C19_button_steps_one_lit_led (SetupLEDs resetState) 6 (by decide) (by decide)
  ⟨by decide, by decide, h.1, h.2.1⟩

end Basic3

namespace Basic2

/-! ## The countdown of basic2.c -/

theorem SysTick_Handler_step (s : State) (h : s.g_iTimer < 4294967296) :
    (SysTick_Handler s).g_iTimer = s.g_iTimer - 1 ∧ (SysTick_Handler s).GPIOD = s.GPIOD := by
  unfold SysTick_Handler
  by_cases h0 : s.g_iTimer = 0
  · rw [if_neg (by simpa using h0)]
    exact ⟨by omega, rfl⟩
  · rw [if_pos h0]
    exact ⟨u32_sub_of_le _ 1 h (by omega), rfl⟩

theorem SysTick_Handler_iterate (s : State) (h : s.g_iTimer < 4294967296) (n : Nat) :
    (SysTick_Handler^[n] s).g_iTimer = s.g_iTimer - n ∧ (SysTick_Handler^[n] s).GPIOD = s.GPIOD := by
  induction n with
  | zero => exact ⟨rfl, rfl⟩
  | succ n ih =>
    rw [Function.iterate_succ_apply']
    obtain ⟨a, b⟩ := SysTick_Handler_step (SysTick_Handler^[n] s) (by rw [ih.1]; omega)
    exact ⟨by rw [a, ih.1]; omega, by rw [b, ih.2]⟩

theorem Delay_loop_exits (fuel : Nat) :
    ∀ (ticks : Nat) (s : State), s.g_iTimer < 4294967296 → s.g_iTimer < fuel →
      Delay_loop fuel ticks s = some (ticks + s.g_iTimer, { s with g_iTimer := 0 }) := by
  induction fuel with
  | zero => intro ticks s _ h; omega
  | succ fuel ih =>
    intro ticks s hu hf
    unfold Delay_loop
    by_cases h0 : s.g_iTimer = 0
    · rw [if_neg (by simpa using h0), h0]
      cases s
      simp only [State.mk.injEq] at *
      subst h0
      rfl
    · rw [if_pos h0]
      obtain ⟨a, b⟩ := SysTick_Handler_step s hu
      rw [ih (ticks + 1) (SysTick_Handler s) (by rw [a]; omega) (by rw [a]; omega), a]
      have hs : ({ SysTick_Handler s with g_iTimer := 0 } : State) = { s with g_iTimer := 0 } := by
        show State.mk (SysTick_Handler s).GPIOD 0 = State.mk s.GPIOD 0
        rw [b]
      rw [hs]
      have ht : ticks + 1 + (s.g_iTimer - 1) = ticks + s.g_iTimer := by omega
      rw [ht]

/-- C21: for every `u32` value `ms`, after `Delay` has stored `g_iTimer = ms`
    the `n`-th following invocation of `SysTick_Handler` leaves `g_iTimer =
    max(ms - n, 0)`: the value never exceeds `ms` (no wrap below zero), it is
    non-zero for `n < ms` and zero from `n = ms` on.  So the wait loop of
    `Delay` exits after exactly `ms` interrupts whenever more than `ms`
    interrupts are allowed for, and at once, without any interrupt, for `ms =
    0`. -/
theorem C21_saturating_countdown (s : State) (ms : Nat) (hms : ms < 4294967296) :
    (∀ n, (SysTick_Handler^[n] { s with g_iTimer := ms }).g_iTimer = ms - n) ∧
    (∀ n, (((SysTick_Handler^[n] { s with g_iTimer := ms }).g_iTimer : Nat) : Int) =
      max ((ms : Int) - (n : Int)) 0) ∧
    (∀ n, (SysTick_Handler^[n] { s with g_iTimer := ms }).g_iTimer ≤ ms) ∧
    (∀ n, n < ms → (SysTick_Handler^[n] { s with g_iTimer := ms }).g_iTimer ≠ 0) ∧
    (∀ n, ms ≤ n → (SysTick_Handler^[n] { s with g_iTimer := ms }).g_iTimer = 0) ∧
    (∀ fuel, ms < fuel → Delay ms fuel s = some (ms, { s with g_iTimer := 0 })) ∧
    (ms = 0 → Delay ms 1 s = some (0, { s with g_iTimer := 0 })) := by
  have hit : ∀ n, (SysTick_Handler^[n] { s with g_iTimer := ms }).g_iTimer = ms - n :=
    fun n => (SysTick_Handler_iterate { s with g_iTimer := ms } hms n).1
  have hdelay : ∀ fuel, ms < fuel → Delay ms fuel s = some (ms, { s with g_iTimer := 0 }) := by
    intro fuel hf
    unfold Delay
    rw [Nat.mod_eq_of_lt hms]
    have h := Delay_loop_exits fuel 0 { s with g_iTimer := ms } hms hf
    rw [h]
    simp
  refine ⟨hit, ?_, ?_, ?_, ?_, hdelay, ?_⟩
  · intro n; rw [hit n]; omega
  · intro n; rw [hit n]; omega
  · intro n hn; rw [hit n]; omega
  · intro n hn; rw [hit n]; omega
  · intro h0
    have h := hdelay 1 (by omega)
    rw [h, h0]

/-- Witness for C21: `Delay(1000)` as called by `Basic2` exits after exactly
    1000 interrupts; after 999 of them `g_iTimer` is 1. -/
theorem C21_saturating_countdown_witness :
    1000 < 4294967296 ∧
    (SysTick_Handler^[999] { resetState with g_iTimer := 1000 }).g_iTimer = 1 ∧
    Delay 1000 1001 resetState = some (1000, { resetState with g_iTimer := 0 }) :=
  have h := C21_saturating_countdown resetState 1000 (by decide)
  ⟨by decide, h.1 999, h.2.2.2.2.2.1 1001 (by decide)⟩

end Basic2

theorem toggle_reset_masked (x a nb m : Nat) :
    ((x ^^^ a) &&& nb) &&& m = ((x &&& m) ^^^ (a &&& m)) &&& nb := by
  apply Nat.eq_of_testBit_eq
  intro i
  simp only [Nat.testBit_and, Nat.testBit_xor]
  cases x.testBit i <;> cases a.testBit i <;> cases nb.testBit i <;> cases m.testBit i <;> rfl

namespace Basic1

/-! ## The LED loop of basic1.c -/

theorem Wait_eq (clk milli : Nat) (s : State) : Wait clk milli s = s := by
  unfold Wait
  apply Function.iterate_fixed
  apply Function.iterate_fixed
  rfl

theorem step1_mask (clk : Nat) (s : State)
    (h : s.GPIOD.ODR &&& 0xF000 = 0 ∨ s.GPIOD.ODR &&& 0xF000 = 0x8000) :
    (step1 clk s).GPIOD.ODR &&& 0xF000 = 0x1000 := by
  unfold step1
  rw [Wait_eq]
  show ((s.GPIOD.ODR ^^^ GPIO_Pin_12) &&& not16 GPIO_Pin_15) &&& 0xF000 = 0x1000
  rw [toggle_reset_masked]
  rcases h with h | h <;> rw [h] <;> decide

theorem step_toggle_mask (s : State) (both before after : Nat)
    (h : s.GPIOD.ODR &&& 0xF000 = before) (hb : before ^^^ (both &&& 0xF000) = after) :
    (GPIO_ToggleBits s.GPIOD both).ODR &&& 0xF000 = after := by
  show (s.GPIOD.ODR ^^^ both) &&& 0xF000 = after
  rw [Nat.and_xor_distrib_right, h, hb]

theorem step2_mask (clk : Nat) (s : State) (h : s.GPIOD.ODR &&& 0xF000 = 0x1000) :
    (step2 clk s).GPIOD.ODR &&& 0xF000 = 0x2000 := by
  unfold step2
  rw [Wait_eq]
  exact step_toggle_mask s _ _ _ h (by decide)

theorem step3_mask (clk : Nat) (s : State) (h : s.GPIOD.ODR &&& 0xF000 = 0x2000) :
    (step3 clk s).GPIOD.ODR &&& 0xF000 = 0x4000 := by
  unfold step3
  rw [Wait_eq]
  exact step_toggle_mask s _ _ _ h (by decide)

theorem step4_mask (clk : Nat) (s : State) (h : s.GPIOD.ODR &&& 0xF000 = 0x4000) :
    (step4 clk s).GPIOD.ODR &&& 0xF000 = 0x8000 := by
  unfold step4
  rw [Wait_eq]
  exact step_toggle_mask s _ _ _ h (by decide)

theorem loopBody_mask (clk : Nat) (s : State)
    (h : s.GPIOD.ODR &&& 0xF000 = 0 ∨ s.GPIOD.ODR &&& 0xF000 = 0x8000) :
    (loopBody clk s).GPIOD.ODR &&& 0xF000 = 0x8000 := by
  unfold loopBody
  exact step4_mask clk _ (step3_mask clk _ (step2_mask clk _ (step1_mask clk _ h)))

theorem loopBody_iterate_mask (clk : Nat) (s : State)
    (h : s.GPIOD.ODR &&& 0xF000 = 0 ∨ s.GPIOD.ODR &&& 0xF000 = 0x8000) (n : Nat) :
    ((loopBody clk)^[n] s).GPIOD.ODR &&& 0xF000 = 0 ∨
    ((loopBody clk)^[n] s).GPIOD.ODR &&& 0xF000 = 0x8000 := by
  induction n with
  | zero => exact h
  | succ n ih =>
    rw [Function.iterate_succ_apply']
    right
    exact loopBody_mask clk _ ih

/-- C22: starting an iteration of the loop of `Basic1` with the LEDs 12..15
    all off, or with only LED 15 lit, exactly one LED is lit after each of
    the four steps, 12, 13, 14 and 15 in this order, and the iteration ends
    with only LED 15 lit; the same holds for the iteration that follows any
    number `n` of completed iterations. -/
theorem C22_loop_walks_through_leds (clk : Nat) (s : State)
    (hstart :
      s.GPIOD.ODR &&& (GPIO_Pin_12 ||| GPIO_Pin_13 ||| GPIO_Pin_14 ||| GPIO_Pin_15) = 0 ∨
      s.GPIOD.ODR &&& (GPIO_Pin_12 ||| GPIO_Pin_13 ||| GPIO_Pin_14 ||| GPIO_Pin_15) =
        GPIO_Pin_15) :
    (∀ n,
      litPins (step1 clk ((loopBody clk)^[n] s)).GPIOD [12, 13, 14, 15] = [12] ∧
      litPins (step2 clk (step1 clk ((loopBody clk)^[n] s))).GPIOD [12, 13, 14, 15] = [13] ∧
      litPins (step3 clk (step2 clk (step1 clk ((loopBody clk)^[n] s)))).GPIOD
        [12, 13, 14, 15] = [14] ∧
      litPins (loopBody clk ((loopBody clk)^[n] s)).GPIOD [12, 13, 14, 15] = [15]) ∧
    litPins (loopBody clk s).GPIOD [12, 13, 14, 15] = [15] ∧
    (loopBody clk s).GPIOD.ODR &&& (GPIO_Pin_12 ||| GPIO_Pin_13 ||| GPIO_Pin_14 ||| GPIO_Pin_15) =
      GPIO_Pin_15 := by
  have h0 : s.GPIOD.ODR &&& 0xF000 = 0 ∨ s.GPIOD.ODR &&& 0xF000 = 0x8000 := hstart
  have hiter : ∀ u : State,
      (u.GPIOD.ODR &&& 0xF000 = 0 ∨ u.GPIOD.ODR &&& 0xF000 = 0x8000) →
      litPins (step1 clk u).GPIOD [12, 13, 14, 15] = [12] ∧
      litPins (step2 clk (step1 clk u)).GPIOD [12, 13, 14, 15] = [13] ∧
      litPins (step3 clk (step2 clk (step1 clk u))).GPIOD [12, 13, 14, 15] = [14] ∧
      litPins (loopBody clk u).GPIOD [12, 13, 14, 15] = [15] ∧
      (loopBody clk u).GPIOD.ODR &&& 0xF000 = 0x8000 := by
    intro u hu
    have m1 := step1_mask clk u hu
    have m2 := step2_mask clk _ m1
    have m3 := step3_mask clk _ m2
    have m4 := loopBody_mask clk u hu
    exact ⟨Basic3.litPins_of_mask_12_15 _ 0 (by decide) m1,
      Basic3.litPins_of_mask_12_15 _ 1 (by decide) m2,
      Basic3.litPins_of_mask_12_15 _ 2 (by decide) m3,
      Basic3.litPins_of_mask_12_15 _ 3 (by decide) m4, m4⟩
  refine ⟨?_, (hiter s h0).2.2.2.1, (hiter s h0).2.2.2.2⟩
  intro n
  obtain ⟨a, b, c, d, _⟩ := hiter _ (loopBody_iterate_mask clk s h0 n)
  exact ⟨a, b, c, d⟩

/-- Witness for C22: the first iteration after reset at a 16 MHz core clock,
    and the first step of the second iteration. -/
theorem C22_loop_walks_through_leds_witness :
    (resetState.GPIOD.ODR &&& (GPIO_Pin_12 ||| GPIO_Pin_13 ||| GPIO_Pin_14 ||| GPIO_Pin_15) = 0 ∨
      resetState.GPIOD.ODR &&& (GPIO_Pin_12 ||| GPIO_Pin_13 ||| GPIO_Pin_14 ||| GPIO_Pin_15) =
        GPIO_Pin_15) ∧
    litPins (step1 16000000 resetState).GPIOD [12, 13, 14, 15] = [12] ∧
    litPins (loopBody 16000000 resetState).GPIOD [12, 13, 14, 15] = [15] ∧
    litPins (step1 16000000 ((loopBody 16000000)^[1] resetState)).GPIOD [12, 13, 14, 15] =
      [12] :=
  have h := C22_loop_walks_through_leds 16000000 resetState (Or.inl (by decide))
  ⟨Or.inl (by decide), (h.1 0).1, h.2.1, (h.1 1).1⟩

end Basic1
